import Mathlib

/-!
KTS1622 16-bit I2C GPIO expander driver

A shallow embedding of `src/drivers/gpio-kts1622.c`.

* C integers are natural numbers (register addresses, register bytes, pin
  offsets) or integers (return codes); every store into a `u8` object is
  followed by `% 256`, and the `int` complement `~x` is `not32 x`.
* The chip instance, the register file of the device and the history of the
  run are one explicit state `Sys` that every driver function threads through.
* The SMBus transport is the environment: the outcome of the `n`-th bus
  transaction is `outcome n` (negative: the errno the transport returns;
  otherwise the transaction succeeds).  A failed transaction leaves the register
  file as it was.  Every issued transaction, failed or not, is appended to the
  trace, together with the lock operations and the nested handler invocations.
-/

namespace KTS1622

/-! ## Constants of the driver -/

def NUM_PINS : Nat := 16
def NUM_PORTS : Nat := 2
def NUM_PINS_PER_PORT : Nat := 8

def PIN_OUTPUT : Int := 0
def PIN_INPUT : Int := 1

def PULL_UP_DOWN_DISABLE : Nat := 0
def PULL_UP_DOWN_ENABLE : Nat := 1
def PULL_DOWN : Nat := 0
def PULL_UP : Nat := 1

def KTS1622_INPUT_0 : Nat := 0x00
def KTS1622_OUTPUT_0 : Nat := 0x02
def KTS1622_CONFIG_0 : Nat := 0x06
def KTS1622_PULLUP_DOWN_ENABLE_0 : Nat := 0x46
def KTS1622_PULLUP_DOWN_SELECTION_0 : Nat := 0x48
def KTS1622_INTERRUPT_MASK_0 : Nat := 0x4A
def KTS1622_INTERRUPT_STATUS_0 : Nat := 0x4C
def KTS1622_INTERRUPT_EDGE_0A : Nat := 0x50
def KTS1622_INTERRUPT_CLEAR_0 : Nat := 0x54
def KTS1622_INDIVIDUAL_PIN_OUTPUT_0 : Nat := 0x58

/-! ## Constants of the kernel headers the driver is compiled against

`enum pin_config_param` (linux/pinctrl/pinconf-generic.h), the trigger types of
linux/irq.h and the errno values. -/

def PIN_CONFIG_BIAS_DISABLE : Nat := 1
def PIN_CONFIG_BIAS_PULL_DOWN : Nat := 3
def PIN_CONFIG_BIAS_PULL_UP : Nat := 5
def PIN_CONFIG_DRIVE_OPEN_DRAIN : Nat := 6
def PIN_CONFIG_DRIVE_PUSH_PULL : Nat := 8

/-- `pinconf_to_config_param(config)` of linux/pinctrl/pinconf-generic.h: the
low eight bits of a packed configuration. -/
def pinconf_to_config_param (config : Nat) : Nat := config &&& 0xff

/-- `pinconf_to_config_packed(param, argument)` of
linux/pinctrl/pinconf-generic.h: `(argument << 8) | (param & 0xff)`. -/
def pinconf_to_config_packed (param argument : Nat) : Nat :=
  (argument <<< 8) ||| (param &&& 0xff)

def IRQ_TYPE_NONE : Nat := 0
def IRQ_TYPE_EDGE_RISING : Nat := 1
def IRQ_TYPE_EDGE_FALLING : Nat := 2
def IRQ_TYPE_EDGE_BOTH : Nat := 3
def IRQ_TYPE_LEVEL_HIGH : Nat := 4
def IRQ_TYPE_LEVEL_LOW : Nat := 8

def IRQ_NONE : Int := 0
def IRQ_HANDLED : Int := 1

def EIO : Int := 5
def EINVAL : Int := 22
def ENOTSUPP : Int := 524

/-! ## State -/

/-- The two mutexes of `struct kts1622_chip`. -/
inductive Lock where
  | i2c_lock
  | irq_lock
  deriving DecidableEq, Repr

/-- What a run of the driver does that is visible outside the function. -/
inductive Event where
  | mutex_lock (l : Lock)
  | mutex_unlock (l : Lock)
  | read (reg_addr : Nat)
  | write (reg_addr : Nat) (reg_val : Nat)
  | write_byte (addr : Nat) (value : Nat)
  | handle_nested_irq (hwirq : Nat)
  deriving DecidableEq, Repr

/-- The fields of `struct kts1622_chip` the driver functions use: the address
of the I2C client and the two interrupt caches. -/
structure kts1622_chip where
  addr : Nat
  irq_mask : Nat → Nat
  irq_edge : Nat → Nat

/-- The chip instance, the register file of the device behind the bus, the
outcome of each bus transaction, the number of transactions issued so far and
the trace of the run. -/
structure Sys where
  chip : kts1622_chip
  regs : Nat → Nat
  outcome : Nat → Int
  count : Nat
  trace : List Event

/-- The complement `~x` of a 32-bit `int`, as a bit pattern. -/
def not32 (x : Nat) : Nat := 2 ^ 32 - 1 - x % 2 ^ 32

/-- Record one event. -/
def emit (s : Sys) (e : Event) : Sys := { s with trace := s.trace ++ [e] }

def mutex_lock (s : Sys) (l : Lock) : Sys := emit s (Event.mutex_lock l)

def mutex_unlock (s : Sys) (l : Lock) : Sys := emit s (Event.mutex_unlock l)

/-! ## The SMBus transport (environment) -/

/-- One addressed byte read: the errno of the transport when the transaction
fails, the byte held by the register otherwise. -/
def i2c_smbus_read_byte_data (s : Sys) (reg_addr : Nat) : Int × Sys :=
  let s1 := { emit s (Event.read reg_addr) with count := s.count + 1 }
  if s.outcome s.count < 0 then (s.outcome s.count, s1)
  else (((s.regs reg_addr % 256 : Nat) : Int), s1)

/-- One addressed byte write: the errno of the transport when the transaction
fails; otherwise the register takes the byte and the result is 0. -/
def i2c_smbus_write_byte_data (s : Sys) (reg_addr : Nat) (reg_val : Nat) : Int × Sys :=
  let s1 := { emit s (Event.write reg_addr reg_val) with count := s.count + 1 }
  if s.outcome s.count < 0 then (s.outcome s.count, s1)
  else (0, { s1 with regs := Function.update s1.regs reg_addr reg_val })

/-- One plain byte write (`i2c_smbus_write_byte`), sent to the address the client
holds at that moment: the errno of the transport when the transaction fails, 0
otherwise.  What the addressed devices do with the byte is not part of the
register file and is left out. -/
def i2c_smbus_write_byte (s : Sys) (value : Nat) : Int × Sys :=
  let s1 := { emit s (Event.write_byte s.chip.addr value) with count := s.count + 1 }
  if s.outcome s.count < 0 then (s.outcome s.count, s1) else (0, s1)

/-! ## Register access -/

/-- `kts1622_reg_write(chip, u8 reg_addr, u8 reg_val)`. -/
def kts1622_reg_write (s : Sys) (reg_addr : Nat) (reg_val : Nat) : Int × Sys :=
  i2c_smbus_write_byte_data s (reg_addr % 256) (reg_val % 256)

/-- `kts1622_reg_read(chip, u8 reg_addr, u8 *reg_val)`: the third argument is
the content of `*reg_val` before the call, the second component of the result
its content after the call (untouched when the read fails). -/
def kts1622_reg_read (s : Sys) (reg_addr : Nat) (reg_val : Nat) : Int × Nat × Sys :=
  let r := i2c_smbus_read_byte_data s (reg_addr % 256)
  if r.1 < 0 then (r.1, reg_val, r.2)
  else (0, r.1.toNat % 256, r.2)

/-- `kts1622_reg_bit_set(chip, u8 reg_addr, u8 bit, u8 bit_val)`.  The local
`reg_val` is uninitialised before the read; it is not used when the read
fails. -/
def kts1622_reg_bit_set (s : Sys) (reg_addr : Nat) (bit : Nat) (bit_val : Nat) : Int × Sys :=
  let r := kts1622_reg_read s (reg_addr % 256) 0
  if r.1 < 0 then (r.1, r.2.2)
  else
    let reg_val :=
      if bit_val % 256 ≠ 0 then (r.2.1 ||| (1 <<< (bit % 256))) % 256
      else (r.2.1 &&& not32 (1 <<< (bit % 256))) % 256
    let w := kts1622_reg_write r.2.2 (reg_addr % 256) reg_val
    if w.1 < 0 then (w.1, w.2) else (0, w.2)

/-! ## Pin operations -/

/-- `kts1622_gpio_get_value(gc, unsigned offset)`. -/
def kts1622_gpio_get_value (s : Sys) (offset : Nat) : Int × Sys :=
  let port := offset / 8
  let pin := offset % 8
  let s1 := mutex_lock s Lock.i2c_lock
  let r := kts1622_reg_read s1 (KTS1622_INPUT_0 + port) 0
  let s2 := mutex_unlock r.2.2 Lock.i2c_lock
  if r.1 < 0 then (r.1, s2)
  else ((if r.2.1 &&& (1 <<< pin) ≠ 0 then 1 else 0), s2)

/-- `kts1622_gpio_set_value(gc, unsigned offset, int val)`; it returns
nothing. -/
def kts1622_gpio_set_value (s : Sys) (offset : Nat) (val : Int) : Sys :=
  let port := offset / 8
  let pin := offset % 8
  let reg_addr := (KTS1622_OUTPUT_0 + port) % 256
  let s1 := mutex_lock s Lock.i2c_lock
  let r := kts1622_reg_bit_set s1 reg_addr pin (if val ≠ 0 then 1 else 0)
  mutex_unlock r.2 Lock.i2c_lock

/-- `kts1622_gpio_set_direction(gc, unsigned offset, int direction)`. -/
def kts1622_gpio_set_direction (s : Sys) (offset : Nat) (direction : Int) : Int × Sys :=
  let port := offset / 8
  let pin := offset % 8
  let reg_addr := (KTS1622_CONFIG_0 + port) % 256
  let s1 := mutex_lock s Lock.i2c_lock
  let r :=
    if direction = PIN_OUTPUT then kts1622_reg_bit_set s1 reg_addr pin 0
    else kts1622_reg_bit_set s1 reg_addr pin 1
  (r.1, mutex_unlock r.2 Lock.i2c_lock)

/-- `kts1622_gpio_direction_input(gc, offset)`. -/
def kts1622_gpio_direction_input (s : Sys) (offset : Nat) : Int × Sys :=
  kts1622_gpio_set_direction s offset PIN_INPUT

/-- `kts1622_gpio_direction_output(gc, offset, val)`. -/
def kts1622_gpio_direction_output (s : Sys) (offset : Nat) (val : Int) : Int × Sys :=
  let s1 := kts1622_gpio_set_value s offset val
  kts1622_gpio_set_direction s1 offset PIN_OUTPUT

/-- `kts1622_gpio_get_direction(gc, offset)`. -/
def kts1622_gpio_get_direction (s : Sys) (offset : Nat) : Int × Sys :=
  let port := offset / 8
  let pin := offset % 8
  let reg_addr := (KTS1622_CONFIG_0 + port) % 256
  let s1 := mutex_lock s Lock.i2c_lock
  let r := kts1622_reg_read s1 reg_addr 0
  let s2 := mutex_unlock r.2.2 Lock.i2c_lock
  if r.1 < 0 then (r.1, s2)
  else ((if r.2.1 &&& (1 <<< pin) ≠ 0 then 1 else 0), s2)

/-- `kts1622_gpio_set_pull_up_down(chip, offset, unsigned long config)`. -/
def kts1622_gpio_set_pull_up_down (s : Sys) (offset : Nat) (config : Nat) : Int × Sys :=
  let port := offset / 8
  let pin := offset % 8
  let reg_en_addr := (KTS1622_PULLUP_DOWN_ENABLE_0 + port) % 256
  let reg_sel_addr := (KTS1622_PULLUP_DOWN_SELECTION_0 + port) % 256
  let s1 := mutex_lock s Lock.i2c_lock
  let r1 := kts1622_reg_bit_set s1 reg_en_addr pin PULL_UP_DOWN_DISABLE
  if r1.1 < 0 then (r1.1, mutex_unlock r1.2 Lock.i2c_lock)
  else if config = PIN_CONFIG_BIAS_PULL_UP then
    let r2 := kts1622_reg_bit_set r1.2 reg_sel_addr pin PULL_UP
    if r2.1 < 0 then (r2.1, mutex_unlock r2.2 Lock.i2c_lock)
    else
      let r3 := kts1622_reg_bit_set r2.2 reg_en_addr pin PULL_UP_DOWN_ENABLE
      (r3.1, mutex_unlock r3.2 Lock.i2c_lock)
  else if config = PIN_CONFIG_BIAS_PULL_DOWN then
    let r2 := kts1622_reg_bit_set r1.2 reg_sel_addr pin PULL_DOWN
    if r2.1 < 0 then (r2.1, mutex_unlock r2.2 Lock.i2c_lock)
    else
      let r3 := kts1622_reg_bit_set r2.2 reg_en_addr pin PULL_UP_DOWN_ENABLE
      (r3.1, mutex_unlock r3.2 Lock.i2c_lock)
  else if config = PIN_CONFIG_BIAS_DISABLE then
    let r2 := kts1622_reg_bit_set r1.2 reg_en_addr pin PULL_UP_DOWN_DISABLE
    (r2.1, mutex_unlock r2.2 Lock.i2c_lock)
  else (r1.1, mutex_unlock r1.2 Lock.i2c_lock)

/-- `kts1622_gpio_set_open_drain(chip, offset, unsigned long config)`.  The
local `ret` is assigned on neither branch when `config` is neither drive mode;
`ret` is its content before the function runs. -/
def kts1622_gpio_set_open_drain (s : Sys) (offset : Nat) (config : Nat) (ret : Int) :
    Int × Sys :=
  let port := offset / 8
  let pin := offset % 8
  let reg_addr := (KTS1622_INDIVIDUAL_PIN_OUTPUT_0 + port) % 256
  let s1 := mutex_lock s Lock.i2c_lock
  let r :=
    if config = PIN_CONFIG_DRIVE_OPEN_DRAIN then kts1622_reg_bit_set s1 reg_addr pin 0
    else if config = PIN_CONFIG_DRIVE_PUSH_PULL then kts1622_reg_bit_set s1 reg_addr pin 1
    else (ret, s1)
  (r.1, mutex_unlock r.2 Lock.i2c_lock)

/-- `kts1622_gpio_set_config(gc, offset, unsigned long config)`; `ret` is the
content of the uninitialised local of `kts1622_gpio_set_open_drain`. -/
def kts1622_gpio_set_config (s : Sys) (offset : Nat) (config : Nat) (ret : Int) : Int × Sys :=
  if pinconf_to_config_param config = PIN_CONFIG_BIAS_PULL_UP ∨
      pinconf_to_config_param config = PIN_CONFIG_BIAS_PULL_DOWN then
    kts1622_gpio_set_pull_up_down s offset config
  else if pinconf_to_config_param config = PIN_CONFIG_DRIVE_OPEN_DRAIN ∨
      pinconf_to_config_param config = PIN_CONFIG_DRIVE_PUSH_PULL then
    kts1622_gpio_set_open_drain s offset config ret
  else (- ENOTSUPP, s)

/-! ## Interrupt controller -/

/-- `kts1622_irq_mask(d)`, with `hwirq` the hardware line of `d`. -/
def kts1622_irq_mask (s : Sys) (hwirq : Nat) : Sys :=
  let port := hwirq / 8
  let pin := hwirq % 8
  { s with chip := { s.chip with
      irq_mask := Function.update s.chip.irq_mask port
        ((s.chip.irq_mask port ||| (1 <<< pin)) % 256) } }

/-- `kts1622_irq_unmask(d)`. -/
def kts1622_irq_unmask (s : Sys) (hwirq : Nat) : Sys :=
  let port := hwirq / 8
  let pin := hwirq % 8
  { s with chip := { s.chip with
      irq_mask := Function.update s.chip.irq_mask port
        ((s.chip.irq_mask port &&& not32 (1 <<< pin)) % 256) } }

/-- `kts1622_irq_bus_lock(d)`. -/
def kts1622_irq_bus_lock (s : Sys) : Sys := mutex_lock s Lock.irq_lock

/-- The body of the `for` loop of `kts1622_irq_bus_sync_unlock` for one port;
the results of the three writes are dropped. -/
def kts1622_irq_bus_sync_port (s : Sys) (port : Nat) : Sys :=
  let w1 := kts1622_reg_write s (KTS1622_INTERRUPT_MASK_0 + port) (s.chip.irq_mask port)
  let w2 := kts1622_reg_write w1.2 (KTS1622_INTERRUPT_EDGE_0A + port * 2)
    (w1.2.chip.irq_edge (port * 2))
  let w3 := kts1622_reg_write w2.2 (KTS1622_INTERRUPT_EDGE_0A + port * 2 + 1)
    (w2.2.chip.irq_edge (port * 2 + 1))
  w3.2

/-- `kts1622_irq_bus_sync_unlock(d)`. -/
def kts1622_irq_bus_sync_unlock (s : Sys) : Sys :=
  let s1 := (List.range NUM_PORTS).foldl kts1622_irq_bus_sync_port s
  mutex_unlock s1 Lock.irq_lock

/-- The `switch` of `kts1622_irq_set_type`: the two-bit code of a trigger type,
`none` for the `default` branch. -/
def irq_type_val (type : Nat) : Option Nat :=
  if type = IRQ_TYPE_EDGE_RISING then some 0x01
  else if type = IRQ_TYPE_EDGE_FALLING then some 0x02
  else if type = IRQ_TYPE_EDGE_BOTH then some 0x03
  else if type = IRQ_TYPE_LEVEL_LOW ∨ type = IRQ_TYPE_LEVEL_HIGH then some 0x00
  else none

/-- `kts1622_irq_set_type(d, unsigned int type)`. -/
def kts1622_irq_set_type (s : Sys) (hwirq : Nat) (type : Nat) : Int × Sys :=
  match irq_type_val type with
  | none => (-EINVAL, s)
  | some val =>
    let e1 := (s.chip.irq_edge (hwirq / 4) &&& not32 (0x03 <<< (hwirq % 4))) % 256
    let c1 := { s.chip with irq_edge := Function.update s.chip.irq_edge (hwirq / 4) e1 }
    let e2 := (c1.irq_edge (hwirq / 4) ||| (val <<< ((hwirq % 4) * 2))) % 256
    let c2 := { c1 with irq_edge := Function.update c1.irq_edge (hwirq / 4) e2 }
    (0, { s with chip := c2 })

/-- `kts1622_irq_shutdown(d)`. -/
def kts1622_irq_shutdown (s : Sys) (hwirq : Nat) : Sys :=
  let e1 := (s.chip.irq_edge (hwirq / 4) &&& not32 (0x03 <<< (hwirq % 4))) % 256
  { s with chip := { s.chip with
      irq_edge := Function.update s.chip.irq_edge (hwirq / 4) e1 } }

/-- The body of the first `for` loop of `kts1622_irq_handler` for one port:
read the status register into `irq_status[port]` (the result of the read is
dropped) and, when the byte now in `irq_status[port]` is not 0, write it to the
clear register (the result of the write is dropped). -/
def kts1622_irq_handler_ack (st : (Nat → Nat) × Sys) (port : Nat) : (Nat → Nat) × Sys :=
  let r := kts1622_reg_read st.2 (KTS1622_INTERRUPT_STATUS_0 + port) (st.1 port)
  let irq_status := Function.update st.1 port r.2.1
  if irq_status port ≠ 0x00 then
    (irq_status,
      (kts1622_reg_write r.2.2 (KTS1622_INTERRUPT_CLEAR_0 + port) (irq_status port)).2)
  else (irq_status, r.2.2)

/-- The body of the inner `for` loop of `kts1622_irq_handler` for one pin of
one port; the first component of the state is `nhandled`. -/
def kts1622_irq_handler_pin (irq_status : Nat → Nat) (port : Nat) (st : Nat × Sys)
    (pin : Nat) : Nat × Sys :=
  if (irq_status port >>> pin) &&& 0x01 ≠ 0 then
    (st.1 + 1, emit st.2 (Event.handle_nested_irq (port * NUM_PINS_PER_PORT + pin)))
  else st

/-- The inner `for` loop of `kts1622_irq_handler` for one port. -/
def kts1622_irq_handler_port (irq_status : Nat → Nat) (st : Nat × Sys) (port : Nat) :
    Nat × Sys :=
  (List.range NUM_PINS_PER_PORT).foldl (kts1622_irq_handler_pin irq_status port) st

/-- `kts1622_irq_handler(irq, devid)`.  The local array `u8 irq_status[2]` is
not initialised; `irq_status` is what the two bytes hold when the function
starts. -/
def kts1622_irq_handler (s : Sys) (irq_status : Nat → Nat) : Int × Sys :=
  let a := (List.range NUM_PORTS).foldl kts1622_irq_handler_ack
    ((fun port => irq_status port % 256), s)
  let d := (List.range NUM_PORTS).foldl (kts1622_irq_handler_port a.1) (0, a.2)
  ((if d.1 > 0 then IRQ_HANDLED else IRQ_NONE), d.2)

/-! ## Reset -/

/-- `kts1622_software_reset(chip)`: `u8 orig_addr = i2c->addr`, where the
`addr` of an `i2c_client` is an `unsigned short`. -/
def kts1622_software_reset (s : Sys) : Int × Sys :=
  let orig_addr := s.chip.addr % 256
  let s1 := { s with chip := { s.chip with addr := 0x00 } }
  let r := i2c_smbus_write_byte s1 0x06
  (r.1, { r.2 with chip := { r.2.chip with addr := orig_addr } })

/-! ## Reading the model -/

/-- The two-bit slot of line `pin` in the edge cache: bits `2*(pin%4)` and
`2*(pin%4)+1` of byte `pin/4`. -/
def edge_slot (c : kts1622_chip) (pin : Nat) : Nat :=
  (c.irq_edge (pin / 4) >>> (2 * (pin % 4))) % 4

/-- The register writes of a trace, in order. -/
def writes_of : List Event → List (Nat × Nat)
  | [] => []
  | Event.write a v :: es => (a, v) :: writes_of es
  | _ :: es => writes_of es

/-- The bus transactions (register reads, register writes, plain byte
writes) of a trace, in order. -/
def bus_of : List Event → List Event
  | [] => []
  | Event.read a :: es => Event.read a :: bus_of es
  | Event.write a v :: es => Event.write a v :: bus_of es
  | Event.write_byte a v :: es => Event.write_byte a v :: bus_of es
  | _ :: es => bus_of es

/-- A transport on which every transaction succeeds. -/
def transport_ok (s : Sys) : Prop := ∀ n, 0 ≤ s.outcome n

/-- A fresh system: given register file and caches, a transport that never
fails, an empty trace. -/
def Sys.init (regs : Nat → Nat) (irq_mask irq_edge : Nat → Nat) : Sys :=
  { chip := { addr := 0x20, irq_mask := irq_mask, irq_edge := irq_edge },
    regs := regs, outcome := fun _ => 0, count := 0, trace := [] }

/-- The events a run appended to the trace: those of `s'` after the ones
already in `s`. -/
def events_since (s s' : Sys) : List Event := s'.trace.drop s.trace.length

/-- The byte `kts1622_reg_bit_set` writes back when it has read `reg_val`. -/
def bit_set_byte (reg_val bit bit_val : Nat) : Nat :=
  if bit_val % 256 ≠ 0 then (reg_val ||| (1 <<< (bit % 256))) % 256
  else (reg_val &&& not32 (1 <<< (bit % 256))) % 256

/-- The run from `s` to `s'` took the state lock and then issued, as its first
bus transaction, a read of register `a`. -/
def first_bus_read (s s' : Sys) (a : Nat) : Prop :=
  ∃ rest, s'.trace = s.trace ++ Event.mutex_lock Lock.i2c_lock :: Event.read a :: rest

/-- The state after a `kts1622_reg_bit_set` whose read and write both
succeed. -/
def bit_set_state (s : Sys) (a bit bv : Nat) : Sys :=
  { s with regs := Function.update s.regs a (bit_set_byte (s.regs a % 256) bit bv),
           count := s.count + 2,
           trace := s.trace ++ [Event.read a,
             Event.write a (bit_set_byte (s.regs a % 256) bit bv)] }

/-- The hardware lines whose nested handler a trace invokes, in order. -/
def nested_of : List Event → List Nat
  | [] => []
  | Event.handle_nested_irq n :: es => n :: nested_of es
  | _ :: es => nested_of es

/-- The bits 0..7 that are set in a byte, in ascending order. -/
def set_bits (v : Nat) : List Nat := (List.range 8).filter (fun b => v.testBit b)

/-- Number of bits set in a byte. -/
def popcount8 (v : Nat) : Nat := (set_bits v).length

/-- The two status reads of a run of `kts1622_irq_handler` from `s` succeed:
the read of 0x4C is the next transaction; the read of 0x4D is the one after
it, or the second after it when the clear write of port 0 comes in between. -/
def status_reads_ok (s : Sys) : Prop :=
  0 ≤ s.outcome s.count ∧
  0 ≤ s.outcome (s.count + (if s.regs 0x4C % 256 ≠ 0 then 2 else 1))

/-- Bus transactions among the events. -/
def is_bus : Event → Bool
  | Event.read _ => true
  | Event.write _ _ => true
  | Event.write_byte _ _ => true
  | _ => false

/-- Every event of the list is a bus transaction. -/
def bus_only (l : List Event) : Prop := ∀ e ∈ l, is_bus e = true

/-- The events are one critical section of the state lock: the lock is taken
first, released last, and everything in between is a bus transaction (so the
lock is neither taken nor released in between). -/
def locked_section (evs : List Event) : Prop :=
  ∃ mid, evs = Event.mutex_lock Lock.i2c_lock :: mid ++ [Event.mutex_unlock Lock.i2c_lock] ∧
    bus_only mid

/-- Scan of a trace: every bus transaction occurs while the state lock is
held; `held` tells whether it is held when the scan starts. -/
def bus_under_lock : Bool → List Event → Bool
  | _, [] => true
  | held, e :: es =>
    if e = Event.mutex_lock Lock.i2c_lock then bus_under_lock true es
    else if e = Event.mutex_unlock Lock.i2c_lock then bus_under_lock false es
    else (!is_bus e || held) && bus_under_lock held es

/-! ## Bit-level lemmas -/

theorem testBit_not32_shift (k n b : Nat) (hk : k < 4) (hn : n < 24) (hb : b < 32) :
    (not32 (k <<< n)).testBit b = !(k <<< n).testBit b := by
  have hlt : k <<< n < 2 ^ 32 := by
    rw [Nat.shiftLeft_eq]
    calc k * 2 ^ n < 4 * 2 ^ n := by
          apply Nat.mul_lt_mul_of_pos_right hk (by positivity)
      _ = 2 ^ (n + 2) := by ring
      _ ≤ 2 ^ 32 := Nat.pow_le_pow_right (by norm_num) (by omega)
  unfold not32
  rw [Nat.mod_eq_of_lt hlt, Nat.sub_sub, Nat.add_comm 1, Nat.testBit_two_pow_sub_succ hlt]
  simp [hb]

theorem testBit_or_shift (v bit b : Nat) (hb : b < 8) :
    ((v ||| (1 <<< bit)) % 256).testBit b = (v.testBit b || decide (b = bit)) := by
  have h256 : (256 : Nat) = 2 ^ 8 := by norm_num
  rw [h256, Nat.testBit_mod_two_pow, Nat.testBit_or, Nat.one_shiftLeft, Nat.testBit_two_pow]
  simp [hb, eq_comm]

theorem testBit_and_not_shift (v bit b : Nat) (hbit : bit < 8) (hb : b < 8) :
    ((v &&& not32 (1 <<< bit)) % 256).testBit b = (v.testBit b && !decide (b = bit)) := by
  have h256 : (256 : Nat) = 2 ^ 8 := by norm_num
  rw [h256, Nat.testBit_mod_two_pow, Nat.testBit_and,
    testBit_not32_shift 1 bit b (by omega) (by omega) (by omega),
    Nat.one_shiftLeft, Nat.testBit_two_pow]
  simp [hb, eq_comm]

theorem testBit_mod_256 (v b : Nat) (hb : b < 8) : (v % 256).testBit b = v.testBit b := by
  have h256 : (256 : Nat) = 2 ^ 8 := by norm_num
  rw [h256, Nat.testBit_mod_two_pow]
  simp [hb]

/-- The C test `x & (1 << n)` is the test of bit `n`. -/
theorem and_shift_ne_zero (x n : Nat) : (x &&& (1 <<< n) ≠ 0) ↔ x.testBit n = true := by
  rw [Nat.one_shiftLeft]
  constructor
  · intro h
    by_contra hb
    apply h
    apply Nat.eq_of_testBit_eq
    intro i
    rw [Nat.testBit_and, Nat.testBit_two_pow, Nat.zero_testBit]
    by_cases hi : n = i
    · subst hi
      simp [hb]
    · simp [hi]
  · intro hb h
    have ht : (x &&& 2 ^ n).testBit n = true := by
      rw [Nat.testBit_and, Nat.testBit_two_pow, hb]
      simp
    rw [h, Nat.zero_testBit] at ht
    exact Bool.noConfusion ht

/-- Bit `b` of the byte written back by `kts1622_reg_bit_set`: the new value at
the chosen bit, the old bit elsewhere. -/
theorem testBit_bit_set_byte (v bit bit_val b : Nat) (hbit : bit < 8) (hb : b < 8) :
    (bit_set_byte v bit bit_val).testBit b =
      if b = bit then decide (bit_val % 256 ≠ 0) else v.testBit b := by
  have hm : bit % 256 = bit := Nat.mod_eq_of_lt (by omega)
  unfold bit_set_byte
  rw [hm]
  by_cases hv : bit_val % 256 ≠ 0
  · rw [if_pos hv, testBit_or_shift v bit b hb]
    by_cases hbb : b = bit <;> simp [hbb, hv]
  · rw [if_neg hv, testBit_and_not_shift v bit b hbit hb]
    by_cases hbb : b = bit <;> simp [hbb, hv]

theorem bit_set_byte_lt (v bit bit_val : Nat) : bit_set_byte v bit bit_val < 256 := by
  unfold bit_set_byte
  split <;> exact Nat.mod_lt _ (by norm_num)

/-! ## What one `kts1622_reg_bit_set` does -/

theorem events_since_append (s s' : Sys) (l : List Event) (h : s'.trace = s.trace ++ l) :
    events_since s s' = l := by
  simp [events_since, h]

theorem reg_read_fail (s : Sys) (a v0 : Nat) (h : s.outcome s.count < 0) :
    kts1622_reg_read s a v0 =
      (s.outcome s.count, v0,
        { s with count := s.count + 1, trace := s.trace ++ [Event.read (a % 256)] }) := by
  simp only [kts1622_reg_read, i2c_smbus_read_byte_data, emit, if_pos h]

theorem reg_read_ok (s : Sys) (a v0 : Nat) (h : 0 ≤ s.outcome s.count) :
    kts1622_reg_read s a v0 =
      (0, s.regs (a % 256) % 256,
        { s with count := s.count + 1, trace := s.trace ++ [Event.read (a % 256)] }) := by
  have h1 : ¬ s.outcome s.count < 0 := not_lt.mpr h
  have h2 : ¬ (((s.regs (a % 256) % 256 : Nat) : Int) < 0) := by omega
  simp only [kts1622_reg_read, i2c_smbus_read_byte_data, emit, if_neg h1, if_neg h2,
    Int.toNat_ofNat, Nat.mod_mod]

theorem reg_write_fail (s : Sys) (a v : Nat) (h : s.outcome s.count < 0) :
    kts1622_reg_write s a v =
      (s.outcome s.count,
        { s with count := s.count + 1,
                 trace := s.trace ++ [Event.write (a % 256) (v % 256)] }) := by
  simp only [kts1622_reg_write, i2c_smbus_write_byte_data, emit, if_pos h]

theorem reg_write_ok (s : Sys) (a v : Nat) (h : 0 ≤ s.outcome s.count) :
    kts1622_reg_write s a v =
      (0,
        { s with regs := Function.update s.regs (a % 256) (v % 256),
                 count := s.count + 1,
                 trace := s.trace ++ [Event.write (a % 256) (v % 256)] }) := by
  have h1 : ¬ s.outcome s.count < 0 := not_lt.mpr h
  simp only [kts1622_reg_write, i2c_smbus_write_byte_data, emit, if_neg h1]

/-- The three ways `kts1622_reg_bit_set` ends: the read fails; the read
succeeds and the write fails; both succeed. -/
theorem reg_bit_set_cases (s : Sys) (a bit bv : Nat) (ha : a < 256) :
    (s.outcome s.count < 0 ∧
      kts1622_reg_bit_set s a bit bv =
        (s.outcome s.count,
          { s with count := s.count + 1, trace := s.trace ++ [Event.read a] })) ∨
    (0 ≤ s.outcome s.count ∧ s.outcome (s.count + 1) < 0 ∧
      kts1622_reg_bit_set s a bit bv =
        (s.outcome (s.count + 1),
          { s with count := s.count + 2,
                   trace := s.trace ++ [Event.read a,
                     Event.write a (bit_set_byte (s.regs a % 256) bit bv)] })) ∨
    (0 ≤ s.outcome s.count ∧ 0 ≤ s.outcome (s.count + 1) ∧
      kts1622_reg_bit_set s a bit bv =
        (0,
          { s with regs := Function.update s.regs a (bit_set_byte (s.regs a % 256) bit bv),
                   count := s.count + 2,
                   trace := s.trace ++ [Event.read a,
                     Event.write a (bit_set_byte (s.regs a % 256) bit bv)] })) := by
  have hm : a % 256 = a := Nat.mod_eq_of_lt ha
  have hb : ∀ v, bit_set_byte v bit bv % 256 = bit_set_byte v bit bv :=
    fun v => Nat.mod_eq_of_lt (bit_set_byte_lt v bit bv)
  have hbyte : ∀ v, (if bv % 256 ≠ 0 then (v ||| (1 <<< (bit % 256))) % 256
      else (v &&& not32 (1 <<< (bit % 256))) % 256) = bit_set_byte v bit bv := fun _ => rfl
  by_cases h0 : s.outcome s.count < 0
  · left
    refine ⟨h0, ?_⟩
    simp only [kts1622_reg_bit_set, hm, reg_read_fail s a 0 h0, if_pos h0]
  · right
    have h0p : 0 ≤ s.outcome s.count := not_lt.mp h0
    by_cases h1 : s.outcome (s.count + 1) < 0
    · left
      refine ⟨h0p, h1, ?_⟩
      simp only [kts1622_reg_bit_set, hm, reg_read_ok s a 0 h0p, hbyte, lt_irrefl, if_false]
      rw [reg_write_fail _ _ _ (by simpa using h1)]
      simp [hm, hb, h1]
    · right
      have h1p : 0 ≤ s.outcome (s.count + 1) := not_lt.mp h1
      refine ⟨h0p, h1p, ?_⟩
      simp only [kts1622_reg_bit_set, hm, reg_read_ok s a 0 h0p, hbyte, lt_irrefl, if_false]
      rw [reg_write_ok _ _ _ (by simpa using h1p)]
      simp [hm, hb]

theorem reg_bit_set_ok (s : Sys) (a bit bv : Nat) (ha : a < 256) (h : transport_ok s) :
    kts1622_reg_bit_set s a bit bv =
      (0,
        { s with regs := Function.update s.regs a (bit_set_byte (s.regs a % 256) bit bv),
                 count := s.count + 2,
                 trace := s.trace ++ [Event.read a,
                   Event.write a (bit_set_byte (s.regs a % 256) bit bv)] }) := by
  rcases reg_bit_set_cases s a bit bv ha with ⟨h0, _⟩ | ⟨_, h1, _⟩ | ⟨_, _, e⟩
  · exact absurd (h s.count) (not_le.mpr h0)
  · exact absurd (h (s.count + 1)) (not_le.mpr h1)
  · exact e

theorem reg_bit_set_trace (s : Sys) (a bit bv : Nat) (ha : a < 256) :
    ∃ l, (kts1622_reg_bit_set s a bit bv).2.trace = s.trace ++ Event.read a :: l := by
  rcases reg_bit_set_cases s a bit bv ha with ⟨_, e⟩ | ⟨_, _, e⟩ | ⟨_, _, e⟩
  · exact ⟨[], by rw [e]⟩
  · exact ⟨[Event.write a (bit_set_byte (s.regs a % 256) bit bv)], by rw [e]⟩
  · exact ⟨[Event.write a (bit_set_byte (s.regs a % 256) bit bv)], by rw [e]⟩

theorem reg_bit_set_outcome (s : Sys) (a bit bv : Nat) (ha : a < 256) :
    (kts1622_reg_bit_set s a bit bv).2.outcome = s.outcome := by
  rcases reg_bit_set_cases s a bit bv ha with ⟨_, e⟩ | ⟨_, _, e⟩ | ⟨_, _, e⟩ <;> rw [e]

theorem reg_bit_set_chip (s : Sys) (a bit bv : Nat) (ha : a < 256) :
    (kts1622_reg_bit_set s a bit bv).2.chip = s.chip := by
  rcases reg_bit_set_cases s a bit bv ha with ⟨_, e⟩ | ⟨_, _, e⟩ | ⟨_, _, e⟩ <;> rw [e]

theorem reg_bit_set_ret_nonpos (s : Sys) (a bit bv : Nat) (ha : a < 256) :
    (kts1622_reg_bit_set s a bit bv).1 ≤ 0 := by
  rcases reg_bit_set_cases s a bit bv ha with ⟨h, e⟩ | ⟨_, h, e⟩ | ⟨_, _, e⟩ <;> rw [e]
  · exact le_of_lt h
  · exact le_of_lt h

theorem transport_ok_lock (s : Sys) (l : Lock) (h : transport_ok s) :
    transport_ok (mutex_lock s l) := h

theorem transport_ok_unlock (s : Sys) (l : Lock) (h : transport_ok s) :
    transport_ok (mutex_unlock s l) := h

theorem addr_lt (base port : Nat) : (base + port) % 256 < 256 := Nat.mod_lt _ (by norm_num)

theorem mutex_lock_trace (s : Sys) (l : Lock) :
    (mutex_lock s l).trace = s.trace ++ [Event.mutex_lock l] := rfl

theorem mutex_unlock_trace (s : Sys) (l : Lock) :
    (mutex_unlock s l).trace = s.trace ++ [Event.mutex_unlock l] := rfl

theorem reg_read_trace (s : Sys) (a v0 : Nat) :
    (kts1622_reg_read s a v0).2.2.trace = s.trace ++ [Event.read (a % 256)] := by
  by_cases h : s.outcome s.count < 0
  · rw [reg_read_fail s a v0 h]
  · rw [reg_read_ok s a v0 (not_lt.mp h)]

theorem first_bus_read_of_trace (s s' : Sys) (a : Nat) (rest : List Event)
    (h : s'.trace = s.trace ++ Event.mutex_lock Lock.i2c_lock :: Event.read a :: rest) :
    first_bus_read s s' a :=
  ⟨rest, h⟩

theorem get_value_state (s : Sys) (offset : Nat) :
    (kts1622_gpio_get_value s offset).2 =
      mutex_unlock (kts1622_reg_read (mutex_lock s Lock.i2c_lock)
        (KTS1622_INPUT_0 + offset / 8) 0).2.2 Lock.i2c_lock := by
  simp only [kts1622_gpio_get_value]
  split <;> rfl

theorem get_direction_state (s : Sys) (offset : Nat) :
    (kts1622_gpio_get_direction s offset).2 =
      mutex_unlock (kts1622_reg_read (mutex_lock s Lock.i2c_lock)
        ((KTS1622_CONFIG_0 + offset / 8) % 256) 0).2.2 Lock.i2c_lock := by
  simp only [kts1622_gpio_get_direction]
  split <;> rfl

theorem get_value_first (s : Sys) (offset : Nat) :
    first_bus_read s (kts1622_gpio_get_value s offset).2
      ((KTS1622_INPUT_0 + offset / 8) % 256) := by
  apply first_bus_read_of_trace _ _ _ [Event.mutex_unlock Lock.i2c_lock]
  rw [get_value_state]
  simp [mutex_unlock, mutex_lock, emit, reg_read_trace]

theorem get_direction_first (s : Sys) (offset : Nat) :
    first_bus_read s (kts1622_gpio_get_direction s offset).2
      ((KTS1622_CONFIG_0 + offset / 8) % 256) := by
  apply first_bus_read_of_trace _ _ _ [Event.mutex_unlock Lock.i2c_lock]
  rw [get_direction_state]
  simp [mutex_unlock, mutex_lock, emit, reg_read_trace]

theorem set_value_first (s : Sys) (offset : Nat) (val : Int) :
    first_bus_read s (kts1622_gpio_set_value s offset val)
      ((KTS1622_OUTPUT_0 + offset / 8) % 256) := by
  obtain ⟨l, hl⟩ := reg_bit_set_trace (mutex_lock s Lock.i2c_lock)
    ((KTS1622_OUTPUT_0 + offset / 8) % 256) (offset % 8) (if val ≠ 0 then 1 else 0)
    (addr_lt _ _)
  apply first_bus_read_of_trace _ _ _ (l ++ [Event.mutex_unlock Lock.i2c_lock])
  simp only [kts1622_gpio_set_value, mutex_unlock, emit, hl]
  simp [mutex_lock, emit]

theorem set_direction_first (s : Sys) (offset : Nat) (direction : Int) :
    first_bus_read s (kts1622_gpio_set_direction s offset direction).2
      ((KTS1622_CONFIG_0 + offset / 8) % 256) := by
  obtain ⟨l0, hl0⟩ := reg_bit_set_trace (mutex_lock s Lock.i2c_lock)
    ((KTS1622_CONFIG_0 + offset / 8) % 256) (offset % 8) 0 (addr_lt _ _)
  obtain ⟨l1, hl1⟩ := reg_bit_set_trace (mutex_lock s Lock.i2c_lock)
    ((KTS1622_CONFIG_0 + offset / 8) % 256) (offset % 8) 1 (addr_lt _ _)
  by_cases hd : direction = PIN_OUTPUT
  · apply first_bus_read_of_trace _ _ _ (l0 ++ [Event.mutex_unlock Lock.i2c_lock])
    simp only [kts1622_gpio_set_direction, if_pos hd, mutex_unlock, emit, hl0]
    simp [mutex_lock, emit]
  · apply first_bus_read_of_trace _ _ _ (l1 ++ [Event.mutex_unlock Lock.i2c_lock])
    simp only [kts1622_gpio_set_direction, if_neg hd, mutex_unlock, emit, hl1]
    simp [mutex_lock, emit]

theorem direction_output_first (s : Sys) (offset : Nat) (val : Int) :
    first_bus_read s (kts1622_gpio_direction_output s offset val).2
      ((KTS1622_OUTPUT_0 + offset / 8) % 256) := by
  obtain ⟨l1, h1⟩ := set_value_first s offset val
  obtain ⟨l2, h2⟩ := set_direction_first (kts1622_gpio_set_value s offset val) offset PIN_OUTPUT
  refine ⟨l1 ++ Event.mutex_lock Lock.i2c_lock ::
    Event.read ((KTS1622_CONFIG_0 + offset / 8) % 256) :: l2, ?_⟩
  simp only [kts1622_gpio_direction_output, h2, h1]
  simp

theorem set_pull_up_down_first (s : Sys) (offset config : Nat) :
    first_bus_read s (kts1622_gpio_set_pull_up_down s offset config).2
      ((KTS1622_PULLUP_DOWN_ENABLE_0 + offset / 8) % 256) := by
  obtain ⟨l1, h1⟩ := reg_bit_set_trace (mutex_lock s Lock.i2c_lock)
    ((KTS1622_PULLUP_DOWN_ENABLE_0 + offset / 8) % 256) (offset % 8) PULL_UP_DOWN_DISABLE
    (addr_lt _ _)
  have hx : ∀ (t : Sys) (a bit bv : Nat), a < 256 →
      ∃ l, (kts1622_reg_bit_set t a bit bv).2.trace = t.trace ++ l := by
    intro t a bit bv ha
    obtain ⟨l, hl⟩ := reg_bit_set_trace t a bit bv ha
    exact ⟨_, hl⟩
  simp only [kts1622_gpio_set_pull_up_down]
  split_ifs
  · exact ⟨l1 ++ [Event.mutex_unlock Lock.i2c_lock], by simp [mutex_unlock_trace, h1, mutex_lock_trace]⟩
  · obtain ⟨l2, h2⟩ := hx (kts1622_reg_bit_set (mutex_lock s Lock.i2c_lock)
      ((KTS1622_PULLUP_DOWN_ENABLE_0 + offset / 8) % 256) (offset % 8) PULL_UP_DOWN_DISABLE).2
      ((KTS1622_PULLUP_DOWN_SELECTION_0 + offset / 8) % 256) (offset % 8) PULL_UP (addr_lt _ _)
    exact ⟨l1 ++ l2 ++ [Event.mutex_unlock Lock.i2c_lock],
      by simp [mutex_unlock_trace, h2, h1, mutex_lock_trace]⟩
  · obtain ⟨l2, h2⟩ := hx (kts1622_reg_bit_set (mutex_lock s Lock.i2c_lock)
      ((KTS1622_PULLUP_DOWN_ENABLE_0 + offset / 8) % 256) (offset % 8) PULL_UP_DOWN_DISABLE).2
      ((KTS1622_PULLUP_DOWN_SELECTION_0 + offset / 8) % 256) (offset % 8) PULL_UP (addr_lt _ _)
    obtain ⟨l3, h3⟩ := hx (kts1622_reg_bit_set (kts1622_reg_bit_set (mutex_lock s Lock.i2c_lock)
      ((KTS1622_PULLUP_DOWN_ENABLE_0 + offset / 8) % 256) (offset % 8) PULL_UP_DOWN_DISABLE).2
      ((KTS1622_PULLUP_DOWN_SELECTION_0 + offset / 8) % 256) (offset % 8) PULL_UP).2
      ((KTS1622_PULLUP_DOWN_ENABLE_0 + offset / 8) % 256) (offset % 8) PULL_UP_DOWN_ENABLE
      (addr_lt _ _)
    exact ⟨l1 ++ l2 ++ l3 ++ [Event.mutex_unlock Lock.i2c_lock],
      by simp [mutex_unlock_trace, h3, h2, h1, mutex_lock_trace]⟩
  · obtain ⟨l2, h2⟩ := hx (kts1622_reg_bit_set (mutex_lock s Lock.i2c_lock)
      ((KTS1622_PULLUP_DOWN_ENABLE_0 + offset / 8) % 256) (offset % 8) PULL_UP_DOWN_DISABLE).2
      ((KTS1622_PULLUP_DOWN_SELECTION_0 + offset / 8) % 256) (offset % 8) PULL_DOWN (addr_lt _ _)
    exact ⟨l1 ++ l2 ++ [Event.mutex_unlock Lock.i2c_lock],
      by simp [mutex_unlock_trace, h2, h1, mutex_lock_trace]⟩
  · obtain ⟨l2, h2⟩ := hx (kts1622_reg_bit_set (mutex_lock s Lock.i2c_lock)
      ((KTS1622_PULLUP_DOWN_ENABLE_0 + offset / 8) % 256) (offset % 8) PULL_UP_DOWN_DISABLE).2
      ((KTS1622_PULLUP_DOWN_SELECTION_0 + offset / 8) % 256) (offset % 8) PULL_DOWN (addr_lt _ _)
    obtain ⟨l3, h3⟩ := hx (kts1622_reg_bit_set (kts1622_reg_bit_set (mutex_lock s Lock.i2c_lock)
      ((KTS1622_PULLUP_DOWN_ENABLE_0 + offset / 8) % 256) (offset % 8) PULL_UP_DOWN_DISABLE).2
      ((KTS1622_PULLUP_DOWN_SELECTION_0 + offset / 8) % 256) (offset % 8) PULL_DOWN).2
      ((KTS1622_PULLUP_DOWN_ENABLE_0 + offset / 8) % 256) (offset % 8) PULL_UP_DOWN_ENABLE
      (addr_lt _ _)
    exact ⟨l1 ++ l2 ++ l3 ++ [Event.mutex_unlock Lock.i2c_lock],
      by simp [mutex_unlock_trace, h3, h2, h1, mutex_lock_trace]⟩
  · obtain ⟨l2, h2⟩ := hx (kts1622_reg_bit_set (mutex_lock s Lock.i2c_lock)
      ((KTS1622_PULLUP_DOWN_ENABLE_0 + offset / 8) % 256) (offset % 8) PULL_UP_DOWN_DISABLE).2
      ((KTS1622_PULLUP_DOWN_ENABLE_0 + offset / 8) % 256) (offset % 8) PULL_UP_DOWN_DISABLE
      (addr_lt _ _)
    exact ⟨l1 ++ l2 ++ [Event.mutex_unlock Lock.i2c_lock],
      by simp [mutex_unlock_trace, h2, h1, mutex_lock_trace]⟩
  · exact ⟨l1 ++ [Event.mutex_unlock Lock.i2c_lock], by simp [mutex_unlock_trace, h1, mutex_lock_trace]⟩

theorem set_open_drain_first (s : Sys) (offset mode : Nat) (ret : Int)
    (hmode : mode = PIN_CONFIG_DRIVE_OPEN_DRAIN ∨ mode = PIN_CONFIG_DRIVE_PUSH_PULL) :
    first_bus_read s (kts1622_gpio_set_open_drain s offset mode ret).2
      ((KTS1622_INDIVIDUAL_PIN_OUTPUT_0 + offset / 8) % 256) := by
  obtain ⟨l0, hl0⟩ := reg_bit_set_trace (mutex_lock s Lock.i2c_lock)
    ((KTS1622_INDIVIDUAL_PIN_OUTPUT_0 + offset / 8) % 256) (offset % 8) 0 (addr_lt _ _)
  obtain ⟨l1, hl1⟩ := reg_bit_set_trace (mutex_lock s Lock.i2c_lock)
    ((KTS1622_INDIVIDUAL_PIN_OUTPUT_0 + offset / 8) % 256) (offset % 8) 1 (addr_lt _ _)
  rcases hmode with h | h
  · refine ⟨l0 ++ [Event.mutex_unlock Lock.i2c_lock], ?_⟩
    simp only [kts1622_gpio_set_open_drain, h, if_true, mutex_unlock, emit, hl0]
    simp [mutex_lock, emit]
  · have hne : ¬ PIN_CONFIG_DRIVE_PUSH_PULL = PIN_CONFIG_DRIVE_OPEN_DRAIN := by decide
    refine ⟨l1 ++ [Event.mutex_unlock Lock.i2c_lock], ?_⟩
    simp only [kts1622_gpio_set_open_drain, h, if_neg hne, if_true, mutex_unlock, emit, hl1]
    simp [mutex_lock, emit]

/-! ## The pin operations on a transport that succeeds -/

theorem set_value_ok (s : Sys) (offset : Nat) (val : Int) (h : transport_ok s) :
    kts1622_gpio_set_value s offset val =
      { s with
        regs := Function.update s.regs ((KTS1622_OUTPUT_0 + offset / 8) % 256)
          (bit_set_byte (s.regs ((KTS1622_OUTPUT_0 + offset / 8) % 256) % 256) (offset % 8)
            (if val ≠ 0 then 1 else 0)),
        count := s.count + 2,
        trace := s.trace ++ [Event.mutex_lock Lock.i2c_lock,
          Event.read ((KTS1622_OUTPUT_0 + offset / 8) % 256),
          Event.write ((KTS1622_OUTPUT_0 + offset / 8) % 256)
            (bit_set_byte (s.regs ((KTS1622_OUTPUT_0 + offset / 8) % 256) % 256) (offset % 8)
              (if val ≠ 0 then 1 else 0)),
          Event.mutex_unlock Lock.i2c_lock] } := by
  simp only [kts1622_gpio_set_value]
  rw [reg_bit_set_ok _ _ _ _ (addr_lt _ _) (transport_ok_lock s _ h)]
  simp [mutex_lock, mutex_unlock, emit]

theorem set_direction_ok (s : Sys) (offset : Nat) (direction : Int) (h : transport_ok s) :
    kts1622_gpio_set_direction s offset direction =
      (0, { s with
        regs := Function.update s.regs ((KTS1622_CONFIG_0 + offset / 8) % 256)
          (bit_set_byte (s.regs ((KTS1622_CONFIG_0 + offset / 8) % 256) % 256) (offset % 8)
            (if direction = PIN_OUTPUT then 0 else 1)),
        count := s.count + 2,
        trace := s.trace ++ [Event.mutex_lock Lock.i2c_lock,
          Event.read ((KTS1622_CONFIG_0 + offset / 8) % 256),
          Event.write ((KTS1622_CONFIG_0 + offset / 8) % 256)
            (bit_set_byte (s.regs ((KTS1622_CONFIG_0 + offset / 8) % 256) % 256) (offset % 8)
              (if direction = PIN_OUTPUT then 0 else 1)),
          Event.mutex_unlock Lock.i2c_lock] }) := by
  simp only [kts1622_gpio_set_direction]
  by_cases hd : direction = PIN_OUTPUT
  · rw [if_pos hd, reg_bit_set_ok _ _ _ _ (addr_lt _ _) (transport_ok_lock s _ h)]
    simp [mutex_lock, mutex_unlock, emit, hd]
  · rw [if_neg hd, reg_bit_set_ok _ _ _ _ (addr_lt _ _) (transport_ok_lock s _ h)]
    simp [mutex_lock, mutex_unlock, emit, hd]

theorem get_direction_ok (s : Sys) (offset : Nat) (h : transport_ok s) :
    kts1622_gpio_get_direction s offset =
      ((if (s.regs ((KTS1622_CONFIG_0 + offset / 8) % 256) % 256) &&& (1 <<< (offset % 8)) ≠ 0
          then 1 else 0),
        { s with
          count := s.count + 1,
          trace := s.trace ++ [Event.mutex_lock Lock.i2c_lock,
            Event.read ((KTS1622_CONFIG_0 + offset / 8) % 256),
            Event.mutex_unlock Lock.i2c_lock] }) := by
  simp only [kts1622_gpio_get_direction]
  rw [reg_read_ok (mutex_lock s Lock.i2c_lock) _ _ (h _)]
  simp [mutex_lock, mutex_unlock, emit]

theorem get_value_ok (s : Sys) (offset : Nat) (h : transport_ok s) :
    kts1622_gpio_get_value s offset =
      ((if (s.regs ((KTS1622_INPUT_0 + offset / 8) % 256) % 256) &&& (1 <<< (offset % 8)) ≠ 0
          then 1 else 0),
        { s with
          count := s.count + 1,
          trace := s.trace ++ [Event.mutex_lock Lock.i2c_lock,
            Event.read ((KTS1622_INPUT_0 + offset / 8) % 256),
            Event.mutex_unlock Lock.i2c_lock] }) := by
  simp only [kts1622_gpio_get_value]
  rw [reg_read_ok (mutex_lock s Lock.i2c_lock) _ _ (h _)]
  simp [mutex_lock, mutex_unlock, emit]

theorem reg_bit_set_ok_state (s : Sys) (a bit bv : Nat) (ha : a < 256) (h : transport_ok s) :
    kts1622_reg_bit_set s a bit bv = (0, bit_set_state s a bit bv) :=
  reg_bit_set_ok s a bit bv ha h

theorem set_pull_up_down_ok (s : Sys) (offset config : Nat) (h : transport_ok s)
    (hc : config = PIN_CONFIG_BIAS_PULL_UP ∨ config = PIN_CONFIG_BIAS_PULL_DOWN) :
    kts1622_gpio_set_pull_up_down s offset config =
      (0, mutex_unlock
        (bit_set_state
          (bit_set_state
            (bit_set_state (mutex_lock s Lock.i2c_lock)
              ((KTS1622_PULLUP_DOWN_ENABLE_0 + offset / 8) % 256) (offset % 8)
              PULL_UP_DOWN_DISABLE)
            ((KTS1622_PULLUP_DOWN_SELECTION_0 + offset / 8) % 256) (offset % 8)
            (if config = PIN_CONFIG_BIAS_PULL_UP then PULL_UP else PULL_DOWN))
          ((KTS1622_PULLUP_DOWN_ENABLE_0 + offset / 8) % 256) (offset % 8)
          PULL_UP_DOWN_ENABLE)
        Lock.i2c_lock) := by
  have e1 := reg_bit_set_ok_state (mutex_lock s Lock.i2c_lock)
    ((KTS1622_PULLUP_DOWN_ENABLE_0 + offset / 8) % 256) (offset % 8) PULL_UP_DOWN_DISABLE
    (addr_lt _ _) h
  have e2 : ∀ bv, _ := fun bv => reg_bit_set_ok_state
    (bit_set_state (mutex_lock s Lock.i2c_lock)
      ((KTS1622_PULLUP_DOWN_ENABLE_0 + offset / 8) % 256) (offset % 8) PULL_UP_DOWN_DISABLE)
    ((KTS1622_PULLUP_DOWN_SELECTION_0 + offset / 8) % 256) (offset % 8) bv (addr_lt _ _) h
  have e3 : ∀ bv, _ := fun bv => reg_bit_set_ok_state
    (bit_set_state (bit_set_state (mutex_lock s Lock.i2c_lock)
      ((KTS1622_PULLUP_DOWN_ENABLE_0 + offset / 8) % 256) (offset % 8) PULL_UP_DOWN_DISABLE)
      ((KTS1622_PULLUP_DOWN_SELECTION_0 + offset / 8) % 256) (offset % 8) bv)
    ((KTS1622_PULLUP_DOWN_ENABLE_0 + offset / 8) % 256) (offset % 8) PULL_UP_DOWN_ENABLE
    (addr_lt _ _) h
  have hne : ¬ PIN_CONFIG_BIAS_PULL_DOWN = PIN_CONFIG_BIAS_PULL_UP := by decide
  rcases hc with rfl | rfl
  · simp only [kts1622_gpio_set_pull_up_down, e1, e2, e3, lt_irrefl, if_false, if_true]
  · simp only [kts1622_gpio_set_pull_up_down, e1, e2, e3, lt_irrefl, if_false, if_true,
      if_neg hne]

theorem set_pull_up_down_ret_ok (s : Sys) (offset config : Nat) (h : transport_ok s) :
    (kts1622_gpio_set_pull_up_down s offset config).1 = 0 := by
  have e1 := reg_bit_set_ok_state (mutex_lock s Lock.i2c_lock)
    ((KTS1622_PULLUP_DOWN_ENABLE_0 + offset / 8) % 256) (offset % 8) PULL_UP_DOWN_DISABLE
    (addr_lt _ _) h
  have e2 : ∀ base bv, _ := fun base bv => reg_bit_set_ok_state
    (bit_set_state (mutex_lock s Lock.i2c_lock)
      ((KTS1622_PULLUP_DOWN_ENABLE_0 + offset / 8) % 256) (offset % 8) PULL_UP_DOWN_DISABLE)
    ((base + offset / 8) % 256) (offset % 8) bv (addr_lt _ _) h
  have e3 : ∀ bv, _ := fun bv => reg_bit_set_ok_state
    (bit_set_state (bit_set_state (mutex_lock s Lock.i2c_lock)
      ((KTS1622_PULLUP_DOWN_ENABLE_0 + offset / 8) % 256) (offset % 8) PULL_UP_DOWN_DISABLE)
      ((KTS1622_PULLUP_DOWN_SELECTION_0 + offset / 8) % 256) (offset % 8) bv)
    ((KTS1622_PULLUP_DOWN_ENABLE_0 + offset / 8) % 256) (offset % 8) PULL_UP_DOWN_ENABLE
    (addr_lt _ _) h
  simp only [kts1622_gpio_set_pull_up_down, e1, e2, e3, lt_irrefl, if_false]
  split_ifs <;> rfl

theorem set_open_drain_ok (s : Sys) (offset mode : Nat) (ret : Int) (h : transport_ok s)
    (hmode : mode = PIN_CONFIG_DRIVE_OPEN_DRAIN ∨ mode = PIN_CONFIG_DRIVE_PUSH_PULL) :
    kts1622_gpio_set_open_drain s offset mode ret =
      (0, mutex_unlock
        (bit_set_state (mutex_lock s Lock.i2c_lock)
          ((KTS1622_INDIVIDUAL_PIN_OUTPUT_0 + offset / 8) % 256) (offset % 8)
          (if mode = PIN_CONFIG_DRIVE_OPEN_DRAIN then 0 else 1))
        Lock.i2c_lock) := by
  have e : ∀ bv, _ := fun bv => reg_bit_set_ok_state (mutex_lock s Lock.i2c_lock)
    ((KTS1622_INDIVIDUAL_PIN_OUTPUT_0 + offset / 8) % 256) (offset % 8) bv (addr_lt _ _) h
  have hne : ¬ PIN_CONFIG_DRIVE_PUSH_PULL = PIN_CONFIG_DRIVE_OPEN_DRAIN := by decide
  rcases hmode with rfl | rfl
  · simp only [kts1622_gpio_set_open_drain, e, if_true]
  · simp only [kts1622_gpio_set_open_drain, e, if_true, if_neg hne]

theorem direction_output_ok (s : Sys) (offset : Nat) (val : Int) (h : transport_ok s) :
    kts1622_gpio_direction_output s offset val =
      (0, mutex_unlock
        (bit_set_state
          (mutex_lock
            (mutex_unlock
              (bit_set_state (mutex_lock s Lock.i2c_lock)
                ((KTS1622_OUTPUT_0 + offset / 8) % 256) (offset % 8) (if val ≠ 0 then 1 else 0))
              Lock.i2c_lock)
            Lock.i2c_lock)
          ((KTS1622_CONFIG_0 + offset / 8) % 256) (offset % 8) 0)
        Lock.i2c_lock) := by
  have e1 := reg_bit_set_ok_state (mutex_lock s Lock.i2c_lock)
    ((KTS1622_OUTPUT_0 + offset / 8) % 256) (offset % 8) (if val ≠ 0 then 1 else 0)
    (addr_lt _ _) h
  have e2 := reg_bit_set_ok_state
    (mutex_lock (mutex_unlock (bit_set_state (mutex_lock s Lock.i2c_lock)
      ((KTS1622_OUTPUT_0 + offset / 8) % 256) (offset % 8) (if val ≠ 0 then 1 else 0))
      Lock.i2c_lock) Lock.i2c_lock)
    ((KTS1622_CONFIG_0 + offset / 8) % 256) (offset % 8) 0 (addr_lt _ _) h
  simp only [kts1622_gpio_direction_output, kts1622_gpio_set_value, kts1622_gpio_set_direction,
    e1, e2, if_true]

/-! ## C1: pin indices outside [0,15] -/

/-- C1, counterexample: `get_value(16)` on a device whose registers all hold
0xFF does not fail: it returns 1, and it issues a bus read, of register 0x02
(the output register of port 0). -/
theorem C1_get_value_16_touches_bus :
    (kts1622_gpio_get_value (Sys.init (fun _ => 0xFF) (fun _ => 0) (fun _ => 0)) 16).1 = 1 ∧
    bus_of (kts1622_gpio_get_value
      (Sys.init (fun _ => 0xFF) (fun _ => 0) (fun _ => 0)) 16).2.trace = [Event.read 0x02] := by
  decide

/-- C1, amended: no pin operation checks the pin index.  For every pin index,
in [0,15] or not, each of get_value, set_value, set_direction,
direction_output, get_direction, set_pull and set_drive_mode takes the state
lock and issues as its first bus transaction a read of register
`(base + pin/8) mod 256` (base 0x00, 0x02, 0x06, 0x02, 0x06, 0x46, 0x58),
whatever the transport does; on a transport that succeeds none of them returns
an error. -/
theorem C1_pin_index_not_checked (s : Sys) (offset : Nat) (val direction : Int)
    (config mode : Nat) (ret : Int)
    (hmode : mode = PIN_CONFIG_DRIVE_OPEN_DRAIN ∨ mode = PIN_CONFIG_DRIVE_PUSH_PULL) :
    first_bus_read s (kts1622_gpio_get_value s offset).2 ((0x00 + offset / 8) % 256) ∧
    first_bus_read s (kts1622_gpio_set_value s offset val) ((0x02 + offset / 8) % 256) ∧
    first_bus_read s (kts1622_gpio_set_direction s offset direction).2
      ((0x06 + offset / 8) % 256) ∧
    first_bus_read s (kts1622_gpio_direction_output s offset val).2
      ((0x02 + offset / 8) % 256) ∧
    first_bus_read s (kts1622_gpio_get_direction s offset).2 ((0x06 + offset / 8) % 256) ∧
    first_bus_read s (kts1622_gpio_set_pull_up_down s offset config).2
      ((0x46 + offset / 8) % 256) ∧
    first_bus_read s (kts1622_gpio_set_open_drain s offset mode ret).2
      ((0x58 + offset / 8) % 256) ∧
    (transport_ok s →
      0 ≤ (kts1622_gpio_get_value s offset).1 ∧
      (kts1622_gpio_set_direction s offset direction).1 = 0 ∧
      (kts1622_gpio_direction_output s offset val).1 = 0 ∧
      0 ≤ (kts1622_gpio_get_direction s offset).1 ∧
      (kts1622_gpio_set_pull_up_down s offset config).1 = 0 ∧
      (kts1622_gpio_set_open_drain s offset mode ret).1 = 0) := by
  refine ⟨get_value_first s offset, set_value_first s offset val,
    set_direction_first s offset direction, direction_output_first s offset val,
    get_direction_first s offset, set_pull_up_down_first s offset config,
    set_open_drain_first s offset mode ret hmode, ?_⟩
  intro h
  refine ⟨?_, ?_, ?_, ?_, ?_, ?_⟩
  · rw [get_value_ok s offset h]
    dsimp only
    split <;> decide
  · rw [set_direction_ok s offset direction h]
  · rw [direction_output_ok s offset val h]
  · rw [get_direction_ok s offset h]
    dsimp only
    split <;> decide
  · exact set_pull_up_down_ret_ok s offset config h
  · rw [set_open_drain_ok s offset mode ret h hmode]

/-- C1, witness: the operations at pin index 16 on a device whose transport
never fails. -/
theorem C1_pin_index_not_checked_witness :
    (PIN_CONFIG_DRIVE_PUSH_PULL = PIN_CONFIG_DRIVE_OPEN_DRAIN ∨
      PIN_CONFIG_DRIVE_PUSH_PULL = PIN_CONFIG_DRIVE_PUSH_PULL) ∧
    first_bus_read (Sys.init (fun _ => 0) (fun _ => 0) (fun _ => 0))
      (kts1622_gpio_set_open_drain (Sys.init (fun _ => 0) (fun _ => 0) (fun _ => 0)) 16
        PIN_CONFIG_DRIVE_PUSH_PULL 0).2 ((0x58 + 16 / 8) % 256) ∧
    (kts1622_gpio_set_pull_up_down (Sys.init (fun _ => 0) (fun _ => 0) (fun _ => 0)) 16
      PIN_CONFIG_BIAS_PULL_UP).1 = 0 :=
  have hw := C1_pin_index_not_checked (Sys.init (fun _ => 0) (fun _ => 0) (fun _ => 0)) 16 1
    PIN_OUTPUT PIN_CONFIG_BIAS_PULL_UP PIN_CONFIG_DRIVE_PUSH_PULL 0 (Or.inr rfl)
  ⟨Or.inr rfl, hw.2.2.2.2.2.2.1, (hw.2.2.2.2.2.2.2 (fun _ => le_refl 0)).2.2.2.2.1⟩

/-! ## C2: direction_output writes the value before the direction -/

theorem writes_of_append (l1 l2 : List Event) :
    writes_of (l1 ++ l2) = writes_of l1 ++ writes_of l2 := by
  induction l1 with
  | nil => rfl
  | cons e l ih => cases e <;> simp [writes_of, ih]

theorem reg_bit_set_events (s : Sys) (a bit bv : Nat) (ha : a < 256) :
    ∃ l, (kts1622_reg_bit_set s a bit bv).2.trace = s.trace ++ l ∧
      (writes_of l = [] ∨ writes_of l = [(a, bit_set_byte (s.regs a % 256) bit bv)]) := by
  rcases reg_bit_set_cases s a bit bv ha with ⟨_, e⟩ | ⟨_, _, e⟩ | ⟨_, _, e⟩
  · exact ⟨[Event.read a], by rw [e], Or.inl rfl⟩
  · exact ⟨[Event.read a, Event.write a (bit_set_byte (s.regs a % 256) bit bv)], by rw [e],
      Or.inr rfl⟩
  · exact ⟨[Event.read a, Event.write a (bit_set_byte (s.regs a % 256) bit bv)], by rw [e],
      Or.inr rfl⟩

theorem reg_bit_set_regs_other (s : Sys) (a bit bv : Nat) (ha : a < 256) (x : Nat)
    (hx : x ≠ a) : (kts1622_reg_bit_set s a bit bv).2.regs x = s.regs x := by
  rcases reg_bit_set_cases s a bit bv ha with ⟨_, e⟩ | ⟨_, _, e⟩ | ⟨_, _, e⟩
  · rw [e]
  · rw [e]
  · rw [e]
    exact Function.update_noteq hx _ _

theorem port_addr (base offset : Nat) (hb : base ≤ 0x58) (hpin : offset < 16) :
    (base + offset / 8) % 256 = base + offset / 8 :=
  Nat.mod_eq_of_lt (by omega)

/-- C2: for every pin in [0,15], every value and every behaviour of the
transport, the register writes of `direction_output(pin, value)` are, in
order, a sublist of [write of the output register 0x02 + pin/8, write of the
config register 0x06 + pin/8]: no config-register write precedes the
output-register write; on a transport that succeeds both writes are issued,
the output register first. -/
theorem C2_direction_output_order (s : Sys) (offset : Nat) (val : Int) (hpin : offset < 16) :
    List.Sublist
      (writes_of (events_since s (kts1622_gpio_direction_output s offset val).2))
      [(0x02 + offset / 8,
          bit_set_byte (s.regs (0x02 + offset / 8) % 256) (offset % 8) (if val ≠ 0 then 1 else 0)),
        (0x06 + offset / 8, bit_set_byte (s.regs (0x06 + offset / 8) % 256) (offset % 8) 0)] ∧
    (transport_ok s →
      writes_of (events_since s (kts1622_gpio_direction_output s offset val).2) =
        [(0x02 + offset / 8,
            bit_set_byte (s.regs (0x02 + offset / 8) % 256) (offset % 8)
              (if val ≠ 0 then 1 else 0)),
          (0x06 + offset / 8, bit_set_byte (s.regs (0x06 + offset / 8) % 256) (offset % 8) 0)]) := by
  have ho : (KTS1622_OUTPUT_0 + offset / 8) % 256 = 0x02 + offset / 8 :=
    port_addr 0x02 offset (by norm_num) hpin
  have hc : (KTS1622_CONFIG_0 + offset / 8) % 256 = 0x06 + offset / 8 :=
    port_addr 0x06 offset (by norm_num) hpin
  constructor
  · obtain ⟨l1, h1, w1⟩ := reg_bit_set_events (mutex_lock s Lock.i2c_lock)
      (0x02 + offset / 8) (offset % 8) (if val ≠ 0 then 1 else 0) (by omega)
    have hr : (kts1622_gpio_set_value s offset val).regs (0x06 + offset / 8) =
        s.regs (0x06 + offset / 8) := by
      simp only [kts1622_gpio_set_value, ho]
      exact reg_bit_set_regs_other (mutex_lock s Lock.i2c_lock) _ _ _ (by omega) _ (by omega)
    obtain ⟨l2, h2, w2⟩ := reg_bit_set_events
      (mutex_lock (kts1622_gpio_set_value s offset val) Lock.i2c_lock)
      (0x06 + offset / 8) (offset % 8) 0 (by omega)
    have ht : (kts1622_gpio_direction_output s offset val).2.trace =
        s.trace ++ ([Event.mutex_lock Lock.i2c_lock] ++ l1 ++ [Event.mutex_unlock Lock.i2c_lock]
          ++ [Event.mutex_lock Lock.i2c_lock] ++ l2 ++ [Event.mutex_unlock Lock.i2c_lock]) := by
      simp only [kts1622_gpio_direction_output, kts1622_gpio_set_direction, if_true, hc,
        mutex_unlock_trace, h2, mutex_lock_trace]
      simp only [kts1622_gpio_set_value, ho, mutex_unlock_trace, h1, mutex_lock_trace,
        List.append_assoc]
    rw [events_since_append s _ _ ht]
    simp only [writes_of_append]
    have hr2 : (mutex_lock (kts1622_gpio_set_value s offset val) Lock.i2c_lock).regs
        (0x06 + offset / 8) = s.regs (0x06 + offset / 8) := hr
    rw [hr2] at w2
    have hr1 : (mutex_lock s Lock.i2c_lock).regs = s.regs := rfl
    rw [hr1] at w1
    rcases w1 with w1 | w1 <;> rcases w2 with w2 | w2 <;> rw [w1, w2] <;>
      simp [writes_of]
  · intro h
    rw [direction_output_ok s offset val h, ho, hc]
    simp [events_since, bit_set_state, mutex_lock, mutex_unlock, emit, writes_of]

/-- C2, witness: `direction_output(11, 1)` on a device whose registers all
hold 0xFF writes 0xFF to the output register 0x03 and then 0xF7 to the config
register 0x07. -/
theorem C2_direction_output_order_witness :
    (11 < 16) ∧
    writes_of (events_since (Sys.init (fun _ => 0xFF) (fun _ => 0) (fun _ => 0))
      (kts1622_gpio_direction_output (Sys.init (fun _ => 0xFF) (fun _ => 0) (fun _ => 0))
        11 1).2) = [(0x03, 0xFF), (0x07, 0xF7)] :=
  ⟨by decide,
    ((C2_direction_output_order (Sys.init (fun _ => 0xFF) (fun _ => 0) (fun _ => 0)) 11 1
      (by decide)).2 (fun _ => le_refl 0)).trans (by decide)⟩

/-! ## C3: direction_output(pin, true) on a register file -/

/-- C3: on a transport that succeeds, for every pin in [0,15] and every prior
register state, `direction_output(pin, true)` returns 0; afterwards
`get_direction(pin)` returns 0 (output), bit `pin%8` of the output register
`0x02 + pin/8` is 1, and every other bit of every register (in particular of
the output and config registers) is as before; only bit `pin%8` of the output
register and of the config register `0x06 + pin/8` may differ. -/
theorem C3_direction_output_true (s : Sys) (offset : Nat) (val : Int) (hpin : offset < 16)
    (hval : val ≠ 0) (h : transport_ok s) :
    (kts1622_gpio_direction_output s offset val).1 = 0 ∧
    (kts1622_gpio_get_direction (kts1622_gpio_direction_output s offset val).2 offset).1
      = PIN_OUTPUT ∧
    ((kts1622_gpio_direction_output s offset val).2.regs (0x02 + offset / 8)).testBit
      (offset % 8) = true ∧
    (∀ a b, b < 8 →
      ¬ (b = offset % 8 ∧ (a = 0x02 + offset / 8 ∨ a = 0x06 + offset / 8)) →
      ((kts1622_gpio_direction_output s offset val).2.regs a).testBit b =
        (s.regs a).testBit b) := by
  have ho : (KTS1622_OUTPUT_0 + offset / 8) % 256 = 0x02 + offset / 8 :=
    port_addr 0x02 offset (by norm_num) hpin
  have hc : (KTS1622_CONFIG_0 + offset / 8) % 256 = 0x06 + offset / 8 :=
    port_addr 0x06 offset (by norm_num) hpin
  have hbit : offset % 8 < 8 := Nat.mod_lt _ (by norm_num)
  have hne : (0x02 + offset / 8 : Nat) ≠ 0x06 + offset / 8 := by omega
  have hregs : (kts1622_gpio_direction_output s offset val).2.regs =
      Function.update
        (Function.update s.regs (0x02 + offset / 8)
          (bit_set_byte (s.regs (0x02 + offset / 8) % 256) (offset % 8) 1))
        (0x06 + offset / 8)
        (bit_set_byte (s.regs (0x06 + offset / 8) % 256) (offset % 8) 0) := by
    rw [direction_output_ok s offset val h, ho, hc]
    simp [bit_set_state, mutex_lock, mutex_unlock, emit, hval, hne.symm]
  have hok : transport_ok (kts1622_gpio_direction_output s offset val).2 := by
    rw [direction_output_ok s offset val h]
    exact h
  refine ⟨by rw [direction_output_ok s offset val h], ?_, ?_, ?_⟩
  · rw [get_direction_ok _ offset hok, hc, hregs]
    have hb : ¬ ((bit_set_byte (s.regs (0x06 + offset / 8) % 256) (offset % 8) 0 % 256) &&&
        (1 <<< (offset % 8)) ≠ 0) := by
      rw [and_shift_ne_zero, testBit_mod_256 _ _ hbit,
        testBit_bit_set_byte _ _ _ _ hbit hbit]
      simp
    simp only [Function.update_same, if_neg hb]
    rfl
  · rw [hregs, Function.update_noteq hne, Function.update_same,
      testBit_bit_set_byte _ _ _ _ hbit hbit]
    simp
  · intro a b hb hab
    rw [hregs]
    by_cases hac : a = 0x06 + offset / 8
    · subst hac
      have hbn : b ≠ offset % 8 := fun e => hab ⟨e, Or.inr rfl⟩
      rw [Function.update_same, testBit_bit_set_byte _ _ _ _ hbit hb, if_neg hbn,
        testBit_mod_256 _ _ hb]
    · rw [Function.update_noteq hac]
      by_cases hao : a = 0x02 + offset / 8
      · subst hao
        have hbn : b ≠ offset % 8 := fun e => hab ⟨e, Or.inl rfl⟩
        rw [Function.update_same, testBit_bit_set_byte _ _ _ _ hbit hb, if_neg hbn,
          testBit_mod_256 _ _ hb]
      · rw [Function.update_noteq hao]

/-- C3, witness: pin 9 of a device whose registers all hold 0xFF (every pin an
input). -/
theorem C3_direction_output_true_witness :
    (9 < 16) ∧ ((1 : Int) ≠ 0) ∧
    (kts1622_gpio_get_direction
      (kts1622_gpio_direction_output (Sys.init (fun _ => 0xFF) (fun _ => 0) (fun _ => 0))
        9 1).2 9).1 = PIN_OUTPUT :=
  ⟨by decide, by decide,
    (C3_direction_output_true (Sys.init (fun _ => 0xFF) (fun _ => 0) (fun _ => 0)) 9 1
      (by decide) (by decide) (fun _ => le_refl 0)).2.1⟩

/-! ## C4: the three writes of set_pull -/

/-- C4: on a transport that succeeds, for every pin in [0,15], every prior
register state and target pull-up or pull-down, `set_pull` returns 0 and its
register writes are exactly three, in this order: the pull-enable register
`0x46 + pin/8` with the pin's bit 0, the pull-selection register
`0x48 + pin/8` with the pin's bit 1 for pull-up and 0 for pull-down, the
pull-enable register with the pin's bit 1; every other bit of a written byte
is the bit the register held when the write was issued. -/
theorem C4_set_pull_three_writes (s : Sys) (offset config : Nat) (hpin : offset < 16)
    (h : transport_ok s)
    (hc : config = PIN_CONFIG_BIAS_PULL_UP ∨ config = PIN_CONFIG_BIAS_PULL_DOWN) :
    (kts1622_gpio_set_pull_up_down s offset config).1 = 0 ∧
    ∃ v1 v2 v3,
      writes_of (events_since s (kts1622_gpio_set_pull_up_down s offset config).2) =
        [(0x46 + offset / 8, v1), (0x48 + offset / 8, v2), (0x46 + offset / 8, v3)] ∧
      v1 < 256 ∧ v2 < 256 ∧ v3 < 256 ∧
      (∀ b, b < 8 → v1.testBit b =
        if b = offset % 8 then false else (s.regs (0x46 + offset / 8)).testBit b) ∧
      (∀ b, b < 8 → v2.testBit b =
        if b = offset % 8 then decide (config = PIN_CONFIG_BIAS_PULL_UP)
        else (s.regs (0x48 + offset / 8)).testBit b) ∧
      (∀ b, b < 8 → v3.testBit b = if b = offset % 8 then true else v1.testBit b) := by
  have he : (KTS1622_PULLUP_DOWN_ENABLE_0 + offset / 8) % 256 = 0x46 + offset / 8 :=
    port_addr 0x46 offset (by norm_num) hpin
  have hs : (KTS1622_PULLUP_DOWN_SELECTION_0 + offset / 8) % 256 = 0x48 + offset / 8 :=
    port_addr 0x48 offset (by norm_num) hpin
  have hbit : offset % 8 < 8 := Nat.mod_lt _ (by norm_num)
  have hne : (0x48 + offset / 8 : Nat) ≠ 0x46 + offset / 8 := by omega
  refine ⟨set_pull_up_down_ret_ok s offset config h,
    bit_set_byte (s.regs (0x46 + offset / 8) % 256) (offset % 8) PULL_UP_DOWN_DISABLE,
    bit_set_byte (s.regs (0x48 + offset / 8) % 256) (offset % 8)
      (if config = PIN_CONFIG_BIAS_PULL_UP then PULL_UP else PULL_DOWN),
    bit_set_byte
      (bit_set_byte (s.regs (0x46 + offset / 8) % 256) (offset % 8) PULL_UP_DOWN_DISABLE % 256)
      (offset % 8) PULL_UP_DOWN_ENABLE,
    ?_, bit_set_byte_lt _ _ _, bit_set_byte_lt _ _ _, bit_set_byte_lt _ _ _, ?_, ?_, ?_⟩
  · rw [set_pull_up_down_ok s offset config h hc, he, hs]
    simp [events_since, bit_set_state, mutex_lock, mutex_unlock, emit, writes_of, hne, hne.symm]
  · intro b hb
    rw [testBit_bit_set_byte _ _ _ _ hbit hb, testBit_mod_256 _ _ hb]
    simp [PULL_UP_DOWN_DISABLE]
  · intro b hb
    rw [testBit_bit_set_byte _ _ _ _ hbit hb, testBit_mod_256 _ _ hb]
    rcases hc with rfl | rfl <;> simp [PULL_UP, PULL_DOWN, PIN_CONFIG_BIAS_PULL_UP,
      PIN_CONFIG_BIAS_PULL_DOWN]
  · intro b hb
    rw [testBit_bit_set_byte _ _ _ _ hbit hb, testBit_mod_256 _ _ hb]
    simp [PULL_UP_DOWN_ENABLE]

/-- C4, witness: `set_pull(6, PullUp)` on a device whose registers hold 0. -/
theorem C4_set_pull_three_writes_witness :
    (6 < 16) ∧
    (PIN_CONFIG_BIAS_PULL_UP = PIN_CONFIG_BIAS_PULL_UP ∨
      PIN_CONFIG_BIAS_PULL_UP = PIN_CONFIG_BIAS_PULL_DOWN) ∧
    (kts1622_gpio_set_pull_up_down (Sys.init (fun _ => 0) (fun _ => 0) (fun _ => 0)) 6
      PIN_CONFIG_BIAS_PULL_UP).1 = 0 :=
  ⟨by decide, Or.inl rfl,
    (C4_set_pull_three_writes (Sys.init (fun _ => 0) (fun _ => 0) (fun _ => 0)) 6
      PIN_CONFIG_BIAS_PULL_UP (by decide) (fun _ => le_refl 0) (Or.inl rfl)).1⟩

/-! ## C5: a failed set_pull -/

/-- What `kts1622_reg_bit_set` leaves behind: on failure (a negative result,
exactly when the read or the write fails) the register file is as before; on
success the result is 0 and the register holds the modified byte. -/
theorem reg_bit_set_spec (s : Sys) (a bit bv : Nat) (ha : a < 256) :
    ((kts1622_reg_bit_set s a bit bv).1 < 0 ∧
      (s.outcome s.count < 0 ∨ s.outcome (s.count + 1) < 0) ∧
      (kts1622_reg_bit_set s a bit bv).2.regs = s.regs) ∨
    ((kts1622_reg_bit_set s a bit bv).1 = 0 ∧
      (0 ≤ s.outcome s.count ∧ 0 ≤ s.outcome (s.count + 1)) ∧
      (kts1622_reg_bit_set s a bit bv).2.regs =
        Function.update s.regs a (bit_set_byte (s.regs a % 256) bit bv)) := by
  rcases reg_bit_set_cases s a bit bv ha with ⟨h0, e⟩ | ⟨h0, h1, e⟩ | ⟨h0, h1, e⟩
  · left
    rw [e]
    exact ⟨h0, Or.inl h0, rfl⟩
  · left
    rw [e]
    exact ⟨h1, Or.inr h1, rfl⟩
  · right
    rw [e]
    exact ⟨rfl, ⟨h0, h1⟩, rfl⟩

/-- C5, counterexample: pin 0 has its pull enabled (register 0x46 holds 0xFF)
and the first bus transaction fails with - EIO: `set_pull(0, PullUp)` returns
- EIO and bit 0 of the pull-enable register is still 1. -/
theorem C5_failed_set_pull_leaves_enable_set :
    (kts1622_gpio_set_pull_up_down
      { Sys.init (fun _ => 0xFF) (fun _ => 0) (fun _ => 0) with
        outcome := fun n => if n = 0 then - EIO else 0 } 0 PIN_CONFIG_BIAS_PULL_UP).1 = - EIO ∧
    ((kts1622_gpio_set_pull_up_down
      { Sys.init (fun _ => 0xFF) (fun _ => 0) (fun _ => 0) with
        outcome := fun n => if n = 0 then - EIO else 0 } 0 PIN_CONFIG_BIAS_PULL_UP).2.regs
        0x46).testBit 0 = true := by
  decide

/-- C5, amended: for every pin in [0,15], every prior register state and
every pattern of transport failures, if `set_pull(pin, PullUp or PullDown)`
returns an error then: when its initial disable step succeeded (the first read
and the first write of the call), the pin's bit in the pull-enable register
`0x46 + pin/8` is 0 afterwards; when the initial disable step failed, no
register has changed. -/
theorem C5_failed_set_pull (s : Sys) (offset config : Nat) (hpin : offset < 16)
    (hc : config = PIN_CONFIG_BIAS_PULL_UP ∨ config = PIN_CONFIG_BIAS_PULL_DOWN)
    (herr : (kts1622_gpio_set_pull_up_down s offset config).1 < 0) :
    (0 ≤ s.outcome s.count ∧ 0 ≤ s.outcome (s.count + 1) →
      ((kts1622_gpio_set_pull_up_down s offset config).2.regs (0x46 + offset / 8)).testBit
        (offset % 8) = false) ∧
    (s.outcome s.count < 0 ∨ s.outcome (s.count + 1) < 0 →
      (kts1622_gpio_set_pull_up_down s offset config).2.regs = s.regs) := by
  have he : (KTS1622_PULLUP_DOWN_ENABLE_0 + offset / 8) % 256 = 0x46 + offset / 8 :=
    port_addr 0x46 offset (by norm_num) hpin
  have hs : (KTS1622_PULLUP_DOWN_SELECTION_0 + offset / 8) % 256 = 0x48 + offset / 8 :=
    port_addr 0x48 offset (by norm_num) hpin
  have hbit : offset % 8 < 8 := Nat.mod_lt _ (by norm_num)
  have hne : (0x46 + offset / 8 : Nat) ≠ 0x48 + offset / 8 := by omega
  have hcfg : ¬ PIN_CONFIG_BIAS_PULL_DOWN = PIN_CONFIG_BIAS_PULL_UP := by decide
  have hv1 : (bit_set_byte (s.regs (0x46 + offset / 8) % 256) (offset % 8)
      PULL_UP_DOWN_DISABLE).testBit (offset % 8) = false := by
    rw [testBit_bit_set_byte _ _ _ _ hbit hbit]
    simp [PULL_UP_DOWN_DISABLE]
  have key : ∀ bv : Nat,
      (kts1622_gpio_set_pull_up_down s offset config).1 < 0 →
      kts1622_gpio_set_pull_up_down s offset config =
        (let r1 := kts1622_reg_bit_set (mutex_lock s Lock.i2c_lock) (0x46 + offset / 8)
            (offset % 8) PULL_UP_DOWN_DISABLE
         if r1.1 < 0 then (r1.1, mutex_unlock r1.2 Lock.i2c_lock)
         else
          let r2 := kts1622_reg_bit_set r1.2 (0x48 + offset / 8) (offset % 8) bv
          if r2.1 < 0 then (r2.1, mutex_unlock r2.2 Lock.i2c_lock)
          else
            let r3 := kts1622_reg_bit_set r2.2 (0x46 + offset / 8) (offset % 8)
              PULL_UP_DOWN_ENABLE
            (r3.1, mutex_unlock r3.2 Lock.i2c_lock)) →
      (0 ≤ s.outcome s.count ∧ 0 ≤ s.outcome (s.count + 1) →
        ((kts1622_gpio_set_pull_up_down s offset config).2.regs (0x46 + offset / 8)).testBit
          (offset % 8) = false) ∧
      (s.outcome s.count < 0 ∨ s.outcome (s.count + 1) < 0 →
        (kts1622_gpio_set_pull_up_down s offset config).2.regs = s.regs) := by
    intro bv herr hform
    rw [hform] at herr ⊢
    simp only at herr ⊢
    rcases reg_bit_set_spec (mutex_lock s Lock.i2c_lock) (0x46 + offset / 8) (offset % 8)
      PULL_UP_DOWN_DISABLE (by omega) with ⟨r1neg, o1, g1⟩ | ⟨r1z, o1, g1⟩
    · rw [if_pos r1neg]
      refine ⟨fun hok => ?_, fun _ => g1⟩
      rcases o1 with o1 | o1
      · exact absurd hok.1 (not_le.mpr o1)
      · exact absurd hok.2 (not_le.mpr o1)
    · have r1nn : ¬ (kts1622_reg_bit_set (mutex_lock s Lock.i2c_lock) (0x46 + offset / 8)
          (offset % 8) PULL_UP_DOWN_DISABLE).1 < 0 := by rw [r1z]; exact lt_irrefl 0
      rw [if_neg r1nn] at herr ⊢
      refine ⟨fun _ => ?_, fun hf => ?_⟩
      swap
      · rcases hf with hf | hf
        · exact absurd o1.1 (not_le.mpr hf)
        · exact absurd o1.2 (not_le.mpr hf)
      rcases reg_bit_set_spec (kts1622_reg_bit_set (mutex_lock s Lock.i2c_lock)
        (0x46 + offset / 8) (offset % 8) PULL_UP_DOWN_DISABLE).2 (0x48 + offset / 8)
        (offset % 8) bv (by omega) with ⟨r2neg, _, g2⟩ | ⟨r2z, _, g2⟩
      · rw [if_pos r2neg]
        show ((kts1622_reg_bit_set _ _ _ _).2.regs (0x46 + offset / 8)).testBit _ = false
        rw [g2, g1, Function.update_same]
        exact hv1
      · have r2nn : ¬ (kts1622_reg_bit_set (kts1622_reg_bit_set (mutex_lock s Lock.i2c_lock)
            (0x46 + offset / 8) (offset % 8) PULL_UP_DOWN_DISABLE).2 (0x48 + offset / 8)
            (offset % 8) bv).1 < 0 := by rw [r2z]; exact lt_irrefl 0
        rw [if_neg r2nn] at herr ⊢
        rcases reg_bit_set_spec (kts1622_reg_bit_set (kts1622_reg_bit_set
          (mutex_lock s Lock.i2c_lock) (0x46 + offset / 8) (offset % 8)
          PULL_UP_DOWN_DISABLE).2 (0x48 + offset / 8) (offset % 8) bv).2
          (0x46 + offset / 8) (offset % 8) PULL_UP_DOWN_ENABLE (by omega)
          with ⟨_, _, g3⟩ | ⟨r3z, _, _⟩
        · show ((kts1622_reg_bit_set _ _ _ _).2.regs (0x46 + offset / 8)).testBit _ = false
          rw [g3, g2, Function.update_noteq hne, g1, Function.update_same]
          exact hv1
        · rw [r3z] at herr
          exact absurd herr (lt_irrefl 0)
  rcases hc with hc | hc
  · refine key PULL_UP herr ?_
    subst hc
    simp only [kts1622_gpio_set_pull_up_down, he, hs, if_true]
  · refine key PULL_DOWN herr ?_
    subst hc
    simp only [kts1622_gpio_set_pull_up_down, he, hs, if_true, if_neg hcfg]

/-- C5, witness: pin 6 has its pull enabled and the read of the selection
register (the third transaction) fails: the call returns an error and leaves
the pull-enable bit of pin 6 at 0. -/
theorem C5_failed_set_pull_witness :
    (6 < 16) ∧
    (kts1622_gpio_set_pull_up_down
      { Sys.init (fun _ => 0xFF) (fun _ => 0) (fun _ => 0) with
        outcome := fun n => if n = 2 then - EIO else 0 } 6 PIN_CONFIG_BIAS_PULL_UP).1 < 0 ∧
    ((kts1622_gpio_set_pull_up_down
      { Sys.init (fun _ => 0xFF) (fun _ => 0) (fun _ => 0) with
        outcome := fun n => if n = 2 then - EIO else 0 } 6 PIN_CONFIG_BIAS_PULL_UP).2.regs
        (0x46 + 6 / 8)).testBit (6 % 8) = false :=
  ⟨by decide, by decide,
    (C5_failed_set_pull
      { Sys.init (fun _ => 0xFF) (fun _ => 0) (fun _ => 0) with
        outcome := fun n => if n = 2 then - EIO else 0 } 6 PIN_CONFIG_BIAS_PULL_UP
      (by decide) (Or.inl rfl) (by decide)).1 ⟨by decide, by decide⟩⟩

/-! ## C6, C7, C8: the edge cache

`kts1622_irq_set_type` and `kts1622_irq_shutdown` clear the slot with the mask
`~(0x03 << (hwirq % 4))`, the shift is not doubled, while the new code is
or-ed in at `(hwirq % 4) * 2`. -/

/-- C6, at the failing input: the slot of pin 1 holds 10 (falling);
`set_edge_type(1, Rising)` succeeds and leaves 11 (both) in the slot, not 01:
edge-cache byte 0 goes from 0x08 to 0x0C. -/
theorem C6_set_type_keeps_stale_bit :
    edge_slot (Sys.init (fun _ => 0) (fun _ => 0) (fun i => if i = 0 then 0x08 else 0)).chip 1
      = 2 ∧
    (kts1622_irq_set_type
      (Sys.init (fun _ => 0) (fun _ => 0) (fun i => if i = 0 then 0x08 else 0)) 1
      IRQ_TYPE_EDGE_RISING).1 = 0 ∧
    (kts1622_irq_set_type
      (Sys.init (fun _ => 0) (fun _ => 0) (fun i => if i = 0 then 0x08 else 0)) 1
      IRQ_TYPE_EDGE_RISING).2.chip.irq_edge 0 = 0x0C ∧
    edge_slot (kts1622_irq_set_type
      (Sys.init (fun _ => 0) (fun _ => 0) (fun i => if i = 0 then 0x08 else 0)) 1
      IRQ_TYPE_EDGE_RISING).2.chip 1 = 3 := by
  decide

/-- C7, at the failing input: the slot of pin 0 holds 11 (both);
`set_edge_type(1, Rising)` leaves 01 in the slot of pin 0: edge-cache byte 0
goes from 0x03 to 0x05. -/
theorem C7_set_type_clobbers_neighbour :
    edge_slot (Sys.init (fun _ => 0) (fun _ => 0) (fun i => if i = 0 then 0x03 else 0)).chip 0
      = 3 ∧
    (kts1622_irq_set_type
      (Sys.init (fun _ => 0) (fun _ => 0) (fun i => if i = 0 then 0x03 else 0)) 1
      IRQ_TYPE_EDGE_RISING).2.chip.irq_edge 0 = 0x05 ∧
    edge_slot (kts1622_irq_set_type
      (Sys.init (fun _ => 0) (fun _ => 0) (fun i => if i = 0 then 0x03 else 0)) 1
      IRQ_TYPE_EDGE_RISING).2.chip 0 = 1 := by
  decide

/-- C8, at the failing input: the slots of pins 0 and 1 hold 11;
`shutdown(1)` leaves 10 in the slot of pin 1 (not 00) and 01 in the slot of
pin 0 (changed): edge-cache byte 0 goes from 0x0F to 0x09. -/
theorem C8_shutdown_wrong_bits :
    (kts1622_irq_shutdown
      (Sys.init (fun _ => 0) (fun _ => 0) (fun i => if i = 0 then 0x0F else 0)) 1).chip.irq_edge 0
      = 0x09 ∧
    edge_slot (kts1622_irq_shutdown
      (Sys.init (fun _ => 0) (fun _ => 0) (fun i => if i = 0 then 0x0F else 0)) 1).chip 1 = 2 ∧
    edge_slot (Sys.init (fun _ => 0) (fun _ => 0) (fun i => if i = 0 then 0x0F else 0)).chip 0
      = 3 ∧
    edge_slot (kts1622_irq_shutdown
      (Sys.init (fun _ => 0) (fun _ => 0) (fun i => if i = 0 then 0x0F else 0)) 1).chip 0 = 1 := by
  decide

/-! ## C9, C10: commit -/

theorem reg_write_trace (s : Sys) (a v : Nat) :
    (kts1622_reg_write s a v).2.trace = s.trace ++ [Event.write (a % 256) (v % 256)] := by
  by_cases h : s.outcome s.count < 0
  · rw [reg_write_fail s a v h]
  · rw [reg_write_ok s a v (not_lt.mp h)]

theorem reg_write_chip (s : Sys) (a v : Nat) : (kts1622_reg_write s a v).2.chip = s.chip := by
  by_cases h : s.outcome s.count < 0
  · rw [reg_write_fail s a v h]
  · rw [reg_write_ok s a v (not_lt.mp h)]

theorem irq_bus_sync_port_chip (s : Sys) (port : Nat) :
    (kts1622_irq_bus_sync_port s port).chip = s.chip := by
  simp only [kts1622_irq_bus_sync_port, reg_write_chip]

theorem irq_bus_sync_port_trace (s : Sys) (port : Nat) :
    (kts1622_irq_bus_sync_port s port).trace =
      s.trace ++ [Event.write ((KTS1622_INTERRUPT_MASK_0 + port) % 256) (s.chip.irq_mask port % 256),
        Event.write ((KTS1622_INTERRUPT_EDGE_0A + port * 2) % 256)
          (s.chip.irq_edge (port * 2) % 256),
        Event.write ((KTS1622_INTERRUPT_EDGE_0A + port * 2 + 1) % 256)
          (s.chip.irq_edge (port * 2 + 1) % 256)] := by
  simp only [kts1622_irq_bus_sync_port, reg_write_trace, reg_write_chip, List.append_assoc,
    List.singleton_append, List.cons_append, List.nil_append]

theorem irq_bus_sync_unlock_chip (s : Sys) : (kts1622_irq_bus_sync_unlock s).chip = s.chip := by
  simp only [kts1622_irq_bus_sync_unlock, NUM_PORTS, mutex_unlock, emit]
  show (kts1622_irq_bus_sync_port (kts1622_irq_bus_sync_port s 0) 1).chip = s.chip
  rw [irq_bus_sync_port_chip, irq_bus_sync_port_chip]

theorem irq_bus_sync_unlock_trace (s : Sys) :
    (kts1622_irq_bus_sync_unlock s).trace =
      s.trace ++ [Event.write 0x4A (s.chip.irq_mask 0 % 256),
        Event.write 0x50 (s.chip.irq_edge 0 % 256),
        Event.write 0x51 (s.chip.irq_edge 1 % 256),
        Event.write 0x4B (s.chip.irq_mask 1 % 256),
        Event.write 0x52 (s.chip.irq_edge 2 % 256),
        Event.write 0x53 (s.chip.irq_edge 3 % 256),
        Event.mutex_unlock Lock.irq_lock] := by
  simp only [kts1622_irq_bus_sync_unlock, NUM_PORTS, mutex_unlock_trace]
  show (kts1622_irq_bus_sync_port (kts1622_irq_bus_sync_port s 0) 1).trace ++ _ = _
  rw [irq_bus_sync_port_trace, irq_bus_sync_port_chip, irq_bus_sync_port_trace]
  simp [KTS1622_INTERRUPT_MASK_0, KTS1622_INTERRUPT_EDGE_0A]

/-- C9: for every cache state and every behaviour of the transport, commit
issues exactly six bus transactions, all register writes and no read: mask
byte `p` to register `0x4A + p` and edge byte `i` to register `0x50 + i`, in
the order 0x4A, 0x50, 0x51, 0x4B, 0x52, 0x53, then releases the cache lock; the
written bytes are those of the cache, and the mask and edge caches are the same
after commit as before. -/
theorem C9_commit_six_writes (s : Sys) :
    events_since s (kts1622_irq_bus_sync_unlock s) =
      [Event.write 0x4A (s.chip.irq_mask 0 % 256),
        Event.write 0x50 (s.chip.irq_edge 0 % 256),
        Event.write 0x51 (s.chip.irq_edge 1 % 256),
        Event.write 0x4B (s.chip.irq_mask 1 % 256),
        Event.write 0x52 (s.chip.irq_edge 2 % 256),
        Event.write 0x53 (s.chip.irq_edge 3 % 256),
        Event.mutex_unlock Lock.irq_lock] ∧
    (kts1622_irq_bus_sync_unlock s).chip.irq_mask = s.chip.irq_mask ∧
    (kts1622_irq_bus_sync_unlock s).chip.irq_edge = s.chip.irq_edge := by
  refine ⟨events_since_append s _ _ (irq_bus_sync_unlock_trace s), ?_, ?_⟩
  · rw [irq_bus_sync_unlock_chip]
  · rw [irq_bus_sync_unlock_chip]

/-- C10: for every pin in [0,15], every initial cache state and every
behaviour of the transport, neither `mask(pin)` nor `unmask(pin)` appends
anything to the trace, and in the sequence `mask(pin)`, `unmask(pin)`,
`commit()` the interrupt-mask register `0x4A + pin/8` is written exactly once,
with a byte whose bit `pin%8` is 0 and whose other bits are those of the
initial mask-cache byte. -/
theorem C10_mask_unmask_commit (s : Sys) (pin : Nat) (hpin : pin < 16) :
    (kts1622_irq_mask s pin).trace = s.trace ∧
    (kts1622_irq_unmask (kts1622_irq_mask s pin) pin).trace = s.trace ∧
    ∃ v,
      (writes_of (events_since s
        (kts1622_irq_bus_sync_unlock (kts1622_irq_unmask (kts1622_irq_mask s pin) pin)))).filter
          (fun w => decide (w.1 = 0x4A + pin / 8)) = [(0x4A + pin / 8, v)] ∧
      v.testBit (pin % 8) = false ∧
      (∀ b, b < 8 → b ≠ pin % 8 → v.testBit b = (s.chip.irq_mask (pin / 8)).testBit b) := by
  have hbit : pin % 8 < 8 := Nat.mod_lt _ (by norm_num)
  have hm : (kts1622_irq_unmask (kts1622_irq_mask s pin) pin).chip.irq_mask (pin / 8) =
      (((s.chip.irq_mask (pin / 8) ||| (1 <<< (pin % 8))) % 256) &&&
        not32 (1 <<< (pin % 8))) % 256 := by
    simp [kts1622_irq_unmask, kts1622_irq_mask]
  have ht : (kts1622_irq_unmask (kts1622_irq_mask s pin) pin).trace = s.trace := rfl
  refine ⟨rfl, rfl,
    (kts1622_irq_unmask (kts1622_irq_mask s pin) pin).chip.irq_mask (pin / 8) % 256, ?_, ?_, ?_⟩
  · have he := events_since_append s
      (kts1622_irq_bus_sync_unlock (kts1622_irq_unmask (kts1622_irq_mask s pin) pin)) _
      ((irq_bus_sync_unlock_trace _).trans (by rw [ht]))
    rw [he]
    have hp : pin / 8 = 0 ∨ pin / 8 = 1 := by omega
    rcases hp with hp | hp <;> rw [hp] <;> simp [writes_of]
  · rw [testBit_mod_256 _ _ hbit, hm, testBit_and_not_shift _ _ _ hbit hbit]
    simp
  · intro b hb hne
    rw [testBit_mod_256 _ _ hb, hm, testBit_and_not_shift _ _ _ hbit hb,
      testBit_or_shift _ _ _ hb]
    simp [hne]

/-- C10, witness: pin 3, with every pin masked to begin with: the byte
committed to register 0x4A is 0xF7. -/
theorem C10_mask_unmask_commit_witness :
    (3 < 16) ∧
    (kts1622_irq_unmask (kts1622_irq_mask
      (Sys.init (fun _ => 0) (fun _ => 0xFF) (fun _ => 0)) 3) 3).trace =
      (Sys.init (fun _ => 0) (fun _ => 0xFF) (fun _ => 0)).trace ∧
    (writes_of (events_since (Sys.init (fun _ => 0) (fun _ => 0xFF) (fun _ => 0))
      (kts1622_irq_bus_sync_unlock (kts1622_irq_unmask (kts1622_irq_mask
        (Sys.init (fun _ => 0) (fun _ => 0xFF) (fun _ => 0)) 3) 3)))).filter
          (fun w => decide (w.1 = 0x4A + 3 / 8)) = [(0x4A, 0xF7)] :=
  ⟨by decide,
    (C10_mask_unmask_commit (Sys.init (fun _ => 0) (fun _ => 0xFF) (fun _ => 0)) 3
      (by decide)).2.1,
    by decide⟩

/-! ## The interrupt handler -/

theorem reg_write_count (s : Sys) (a v : Nat) :
    (kts1622_reg_write s a v).2.count = s.count + 1 := by
  by_cases h : s.outcome s.count < 0
  · rw [reg_write_fail s a v h]
  · rw [reg_write_ok s a v (not_lt.mp h)]

theorem reg_write_outcome (s : Sys) (a v : Nat) :
    (kts1622_reg_write s a v).2.outcome = s.outcome := by
  by_cases h : s.outcome s.count < 0
  · rw [reg_write_fail s a v h]
  · rw [reg_write_ok s a v (not_lt.mp h)]

theorem reg_write_regs_other (s : Sys) (a v x : Nat) (hx : x ≠ a % 256) :
    (kts1622_reg_write s a v).2.regs x = s.regs x := by
  by_cases h : s.outcome s.count < 0
  · rw [reg_write_fail s a v h]
  · rw [reg_write_ok s a v (not_lt.mp h)]
    exact Function.update_noteq hx _ _

theorem reg_write_regs_same (s : Sys) (a v : Nat) (h : 0 ≤ s.outcome s.count) :
    (kts1622_reg_write s a v).2.regs (a % 256) = v % 256 := by
  rw [reg_write_ok s a v h]
  exact Function.update_same _ _ _

/-- One round of the first loop of the handler when its status read
succeeds. -/
theorem irq_handler_ack_spec (st : (Nat → Nat) × Sys) (port : Nat) (hp : port < 2)
    (h : 0 ≤ st.2.outcome st.2.count) :
    (kts1622_irq_handler_ack st port).1 =
      Function.update st.1 port (st.2.regs (0x4C + port) % 256) ∧
    (kts1622_irq_handler_ack st port).2.trace =
      st.2.trace ++ Event.read (0x4C + port) ::
        (if st.2.regs (0x4C + port) % 256 ≠ 0
          then [Event.write (0x54 + port) (st.2.regs (0x4C + port) % 256)] else []) ∧
    (kts1622_irq_handler_ack st port).2.outcome = st.2.outcome ∧
    (kts1622_irq_handler_ack st port).2.count =
      st.2.count + (if st.2.regs (0x4C + port) % 256 ≠ 0 then 2 else 1) ∧
    (∀ x, x ≠ 0x54 + port → (kts1622_irq_handler_ack st port).2.regs x = st.2.regs x) ∧
    (kts1622_irq_handler_ack st port).2.chip = st.2.chip := by
  have ha : (KTS1622_INTERRUPT_STATUS_0 + port) % 256 = 0x4C + port :=
    Nat.mod_eq_of_lt (by simp only [KTS1622_INTERRUPT_STATUS_0]; omega)
  have hc : (KTS1622_INTERRUPT_CLEAR_0 + port) % 256 = 0x54 + port :=
    Nat.mod_eq_of_lt (by simp only [KTS1622_INTERRUPT_CLEAR_0]; omega)
  have hvm : st.2.regs (0x4C + port) % 256 % 256 = st.2.regs (0x4C + port) % 256 :=
    Nat.mod_mod _ _
  simp only [kts1622_irq_handler_ack]
  rw [reg_read_ok st.2 _ _ h, ha]
  simp only [Function.update_same]
  by_cases hv : st.2.regs (0x4C + port) % 256 ≠ 0
  · simp only [if_pos hv]
    refine ⟨trivial, ?_, ?_, ?_, ?_, ?_⟩
    · rw [reg_write_trace, hc, hvm]
      simp
    · rw [reg_write_outcome]
    · rw [reg_write_count]
    · intro x hx
      rw [reg_write_regs_other _ _ _ _ (by rw [hc]; exact hx)]
    · rw [reg_write_chip]
  · simp only [if_neg hv]
    refine ⟨trivial, ?_, trivial, trivial, fun _ _ => trivial, trivial⟩
    simp

/-- The C test `(x >> n) & 0x01` is the test of bit `n`. -/
theorem shift_and_one_ne_zero (x n : Nat) : ((x >>> n) &&& 0x01 ≠ 0) ↔ x.testBit n = true := by
  unfold Nat.testBit
  rw [Nat.and_comm]
  simp

theorem nested_of_append (l1 l2 : List Event) :
    nested_of (l1 ++ l2) = nested_of l1 ++ nested_of l2 := by
  induction l1 with
  | nil => rfl
  | cons e l ih => cases e <;> simp [nested_of, ih]

theorem nested_of_map (f : Nat → Nat) (l : List Nat) :
    nested_of (l.map (fun b => Event.handle_nested_irq (f b))) = l.map f := by
  induction l with
  | nil => rfl
  | cons b l ih => simp [nested_of, ih]

theorem writes_of_map_nested (f : Nat → Nat) (l : List Nat) :
    writes_of (l.map (fun b => Event.handle_nested_irq (f b))) = [] := by
  induction l with
  | nil => rfl
  | cons b l ih => simp [writes_of, ih]

/-- The inner loop of the handler over a list of pins: one invocation, and one
more in `nhandled`, for every pin of the list whose status bit is set. -/
theorem irq_handler_pin_foldl (irq_status : Nat → Nat) (port : Nat) (l : List Nat)
    (st : Nat × Sys) :
    l.foldl (kts1622_irq_handler_pin irq_status port) st =
      (st.1 + (l.filter (fun b => (irq_status port).testBit b)).length,
        { st.2 with
          trace := st.2.trace ++ List.map (fun b => Event.handle_nested_irq (port * 8 + b))
                      (l.filter (fun b => (irq_status port).testBit b)) }) := by
  induction l generalizing st with
  | nil => simp
  | cons b l ih =>
    rw [List.foldl_cons, ih]
    by_cases hb : (irq_status port).testBit b = true
    · have hc : (irq_status port >>> b) &&& 0x01 ≠ 0 := (shift_and_one_ne_zero _ _).mpr hb
      simp only [kts1622_irq_handler_pin, if_pos hc, List.filter_cons, hb, if_true, emit,
        NUM_PINS_PER_PORT, List.length_cons, List.map_cons]
      simp [Nat.add_assoc, Nat.add_comm]
      omega
    · have hc : ¬ ((irq_status port >>> b) &&& 0x01 ≠ 0) :=
        fun hh => hb ((shift_and_one_ne_zero _ _).mp hh)
      simp only [kts1622_irq_handler_pin, if_neg hc, List.filter_cons, hb]
      simp

/-- A run of the handler whose two status reads succeed, with `s0` and `s1`
the bytes read: the trace and the result. -/
theorem irq_handler_spec (s : Sys) (irq_status : Nat → Nat) (h : status_reads_ok s) :
    (kts1622_irq_handler s irq_status).2.trace =
      s.trace ++
        (Event.read 0x4C ::
          (if s.regs 0x4C % 256 ≠ 0 then [Event.write 0x54 (s.regs 0x4C % 256)] else [])) ++
        (Event.read 0x4D ::
          (if s.regs 0x4D % 256 ≠ 0 then [Event.write 0x55 (s.regs 0x4D % 256)] else [])) ++
        List.map (fun b => Event.handle_nested_irq (0 * 8 + b)) (set_bits (s.regs 0x4C % 256)) ++
        List.map (fun b => Event.handle_nested_irq (1 * 8 + b)) (set_bits (s.regs 0x4D % 256)) ∧
    (kts1622_irq_handler s irq_status).1 =
      (if 0 < popcount8 (s.regs 0x4C % 256) + popcount8 (s.regs 0x4D % 256)
        then IRQ_HANDLED else IRQ_NONE) ∧
    (kts1622_irq_handler s irq_status).2.chip = s.chip := by
  obtain ⟨a1, a2, a3, a4, a5, a6⟩ := irq_handler_ack_spec
    ((fun port => irq_status port % 256), s) 0 (by norm_num) h.1
  have h1 : 0 ≤ (kts1622_irq_handler_ack ((fun port => irq_status port % 256), s) 0).2.outcome
      (kts1622_irq_handler_ack ((fun port => irq_status port % 256), s) 0).2.count := by
    rw [a3, a4]
    exact h.2
  obtain ⟨b1, b2, b3, b4, b5, b6⟩ := irq_handler_ack_spec
    (kts1622_irq_handler_ack ((fun port => irq_status port % 256), s) 0) 1 (by norm_num) h1
  have hr : (kts1622_irq_handler_ack ((fun port => irq_status port % 256), s) 0).2.regs 0x4D =
      s.regs 0x4D := a5 0x4D (by norm_num)
  have hfold : (List.range NUM_PORTS).foldl kts1622_irq_handler_ack
      ((fun port => irq_status port % 256), s) =
      kts1622_irq_handler_ack
        (kts1622_irq_handler_ack ((fun port => irq_status port % 256), s) 0) 1 := rfl
  have hs0 : ((List.range NUM_PORTS).foldl kts1622_irq_handler_ack
      ((fun port => irq_status port % 256), s)).1 0 = s.regs 0x4C % 256 := by
    rw [hfold, b1, Function.update_noteq (by norm_num), a1, Function.update_same]
  have hs1 : ((List.range NUM_PORTS).foldl kts1622_irq_handler_ack
      ((fun port => irq_status port % 256), s)).1 1 = s.regs 0x4D % 256 := by
    rw [hfold, b1, Function.update_same]
    exact congrArg (· % 256) hr
  have htr : ((List.range NUM_PORTS).foldl kts1622_irq_handler_ack
      ((fun port => irq_status port % 256), s)).2.trace =
      s.trace ++
        (Event.read 0x4C ::
          (if s.regs 0x4C % 256 ≠ 0 then [Event.write 0x54 (s.regs 0x4C % 256)] else [])) ++
        (Event.read 0x4D ::
          (if s.regs 0x4D % 256 ≠ 0 then [Event.write 0x55 (s.regs 0x4D % 256)] else [])) := by
    rw [hfold, b2, a2]
    have e1 : (0x4D : Nat) = 0x4C + 1 := rfl
    have e2 : (0x55 : Nat) = 0x54 + 1 := rfl
    rw [← e1, ← e2, hr]
  have hch : ((List.range NUM_PORTS).foldl kts1622_irq_handler_ack
      ((fun port => irq_status port % 256), s)).2.chip = s.chip := by
    rw [hfold, b6, a6]
  have hd : ∀ (st : (Nat → Nat) × Sys),
      (List.range NUM_PORTS).foldl (kts1622_irq_handler_port st.1) (0, st.2) =
        (0 + (set_bits (st.1 0)).length + (set_bits (st.1 1)).length,
          { st.2 with
            trace := st.2.trace ++
              List.map (fun b => Event.handle_nested_irq (0 * 8 + b)) (set_bits (st.1 0)) ++
              List.map (fun b => Event.handle_nested_irq (1 * 8 + b)) (set_bits (st.1 1)) }) := by
    intro st
    show kts1622_irq_handler_port st.1 (kts1622_irq_handler_port st.1 (0, st.2) 0) 1 = _
    simp only [kts1622_irq_handler_port, NUM_PINS_PER_PORT, irq_handler_pin_foldl, set_bits,
      List.append_assoc]
  simp only [kts1622_irq_handler]
  rw [hd]
  simp only [hs0, hs1, htr, hch, popcount8, Nat.zero_add]
  refine ⟨trivial, ?_, trivial⟩
  by_cases hz : 0 < (set_bits (s.regs 0x4C % 256)).length + (set_bits (s.regs 0x4D % 256)).length
  · simp [hz]
  · simp [hz]

theorem mem_set_bits (v b : Nat) : b ∈ set_bits v ↔ b < 8 ∧ v.testBit b = true := by
  simp [set_bits]

theorem popcount8_pos (v : Nat) (hv : v < 256) : 0 < popcount8 v ↔ v ≠ 0 := by
  constructor
  · intro hp hz
    subst hz
    simp [popcount8, set_bits] at hp
  · intro hz
    obtain ⟨i, hi⟩ := Nat.ne_zero_implies_bit_true hz
    have hi8 : i < 8 := by
      by_contra hge
      have hlt : v < 2 ^ i :=
        lt_of_lt_of_le hv (by
          have : (256 : Nat) = 2 ^ 8 := by norm_num
          rw [this]
          exact Nat.pow_le_pow_right (by norm_num) (by omega))
      rw [Nat.testBit_lt_two_pow hlt] at hi
      exact Bool.noConfusion hi
    exact List.length_pos_of_mem ((mem_set_bits v i).mpr ⟨hi8, hi⟩)

/-! ## C11, C12, C13: dispatch -/

/-- C11: when the reads of the interrupt-status registers 0x4C and 0x4D
succeed, returning the bytes `s0` and `s1`, the register writes of dispatch
are exactly: `s0` to the clear register 0x54 if `s0` is not 0, then `s1` to the
clear register 0x55 if `s1` is not 0; no other register is written, and with
`s0 = s1 = 0` nothing is written. -/
theorem C11_dispatch_clear_writes (s : Sys) (irq_status : Nat → Nat)
    (h : status_reads_ok s) :
    writes_of (events_since s (kts1622_irq_handler s irq_status).2) =
      (if s.regs 0x4C % 256 ≠ 0 then [(0x54, s.regs 0x4C % 256)] else []) ++
      (if s.regs 0x4D % 256 ≠ 0 then [(0x55, s.regs 0x4D % 256)] else []) ∧
    (s.regs 0x4C % 256 = 0 → s.regs 0x4D % 256 = 0 →
      writes_of (events_since s (kts1622_irq_handler s irq_status).2) = []) := by
  have ht := (irq_handler_spec s irq_status h).1
  simp only [List.append_assoc] at ht
  have hw := events_since_append s _ _ ht
  have key : writes_of (events_since s (kts1622_irq_handler s irq_status).2) =
      (if s.regs 0x4C % 256 ≠ 0 then [(0x54, s.regs 0x4C % 256)] else []) ++
      (if s.regs 0x4D % 256 ≠ 0 then [(0x55, s.regs 0x4D % 256)] else []) := by
    rw [hw]
    simp only [writes_of_append, writes_of_map_nested, List.append_nil]
    by_cases h0 : s.regs 0x4C % 256 ≠ 0 <;> by_cases h1 : s.regs 0x4D % 256 ≠ 0 <;>
      simp [writes_of, h0, h1]
  refine ⟨key, fun z0 z1 => ?_⟩
  rw [key, z0, z1]
  rfl

/-- C11, witness: status 0b00000101 on port 0 and 0 on port 1: the only write
is 0x05 to the clear register 0x54. -/
theorem C11_dispatch_clear_writes_witness :
    status_reads_ok (Sys.init (fun a => if a = 0x4C then 5 else 0) (fun _ => 0) (fun _ => 0)) ∧
    writes_of (events_since
      (Sys.init (fun a => if a = 0x4C then 5 else 0) (fun _ => 0) (fun _ => 0))
      (kts1622_irq_handler
        (Sys.init (fun a => if a = 0x4C then 5 else 0) (fun _ => 0) (fun _ => 0))
        (fun _ => 0)).2) = [(0x54, 5)] :=
  ⟨⟨le_refl 0, le_refl 0⟩,
    (C11_dispatch_clear_writes
      (Sys.init (fun a => if a = 0x4C then 5 else 0) (fun _ => 0) (fun _ => 0)) (fun _ => 0)
      ⟨le_refl 0, le_refl 0⟩).1.trans (by decide)⟩

/-- C12: when the two status reads succeed, returning `s0` and `s1`, the
nested handlers dispatch invokes are, in order, those of the lines `0*8 + b`
for the bits `b` set in `s0` and then of the lines `1*8 + b` for the bits `b`
set in `s1`: no line is invoked twice, the number of invocations is
`popcount(s0) + popcount(s1)`, and the line `port*8 + bit` is invoked exactly
when bit `bit` of the status byte of `port` is set. -/
theorem C12_dispatch_invocations (s : Sys) (irq_status : Nat → Nat)
    (h : status_reads_ok s) :
    nested_of (events_since s (kts1622_irq_handler s irq_status).2) =
      List.map (fun b => 0 * 8 + b) (set_bits (s.regs 0x4C % 256)) ++
      List.map (fun b => 1 * 8 + b) (set_bits (s.regs 0x4D % 256)) ∧
    (nested_of (events_since s (kts1622_irq_handler s irq_status).2)).Nodup ∧
    (nested_of (events_since s (kts1622_irq_handler s irq_status).2)).length =
      popcount8 (s.regs 0x4C % 256) + popcount8 (s.regs 0x4D % 256) ∧
    (∀ port bit, port < 2 → bit < 8 →
      (port * 8 + bit ∈ nested_of (events_since s (kts1622_irq_handler s irq_status).2) ↔
        (s.regs (0x4C + port) % 256).testBit bit = true)) := by
  have ht := (irq_handler_spec s irq_status h).1
  simp only [List.append_assoc] at ht
  have hw := events_since_append s _ _ ht
  have key : nested_of (events_since s (kts1622_irq_handler s irq_status).2) =
      List.map (fun b => 0 * 8 + b) (set_bits (s.regs 0x4C % 256)) ++
      List.map (fun b => 1 * 8 + b) (set_bits (s.regs 0x4D % 256)) := by
    rw [hw]
    have hn : ∀ (a : Nat) (l : List Event), nested_of (Event.read a :: l) = nested_of l :=
      fun _ _ => rfl
    have hnw : ∀ (c : Prop) [Decidable c] (a v : Nat),
        nested_of (if c then [Event.write a v] else []) = [] := by
      intro c _ a v
      split <;> rfl
    simp only [nested_of_append, hn, nested_of_map, hnw, List.nil_append]
  refine ⟨key, ?_, ?_, ?_⟩
  · rw [key]
    refine List.Nodup.append ?_ ?_ ?_
    · exact ((List.nodup_range 8).filter _).map (fun a b hab => by simpa using hab)
    · exact ((List.nodup_range 8).filter _).map (fun a b hab => by simpa using hab)
    · intro n hn0 hn1
      simp only [List.mem_map, mem_set_bits] at hn0 hn1
      obtain ⟨a, ⟨ha, _⟩, rfl⟩ := hn0
      obtain ⟨b, _, hb⟩ := hn1
      omega
  · rw [key]
    simp [popcount8]
  · intro port bit hp hb
    rw [key]
    simp only [List.mem_append, List.mem_map, mem_set_bits]
    have hp01 : port = 0 ∨ port = 1 := by omega
    rcases hp01 with rfl | rfl
    · constructor
      · rintro (⟨a, ⟨_, hta⟩, hab⟩ | ⟨a, ⟨_, _⟩, hab⟩)
        · have : a = bit := by omega
          subst this
          exact hta
        · omega
      · intro hbit
        exact Or.inl ⟨bit, ⟨hb, hbit⟩, rfl⟩
    · constructor
      · rintro (⟨a, ⟨ha, _⟩, hab⟩ | ⟨a, ⟨_, hta⟩, hab⟩)
        · omega
        · have : a = bit := by omega
          subst this
          exact hta
      · intro hbit
        exact Or.inr ⟨bit, ⟨hb, hbit⟩, rfl⟩

/-- C12, witness: status 0b00000101 on port 0 and 0 on port 1: exactly the
handlers of lines 0 and 2 are invoked. -/
theorem C12_dispatch_invocations_witness :
    status_reads_ok (Sys.init (fun a => if a = 0x4C then 5 else 0) (fun _ => 0) (fun _ => 0)) ∧
    nested_of (events_since
      (Sys.init (fun a => if a = 0x4C then 5 else 0) (fun _ => 0) (fun _ => 0))
      (kts1622_irq_handler
        (Sys.init (fun a => if a = 0x4C then 5 else 0) (fun _ => 0) (fun _ => 0))
        (fun _ => 0)).2) = [0, 2] :=
  ⟨⟨le_refl 0, le_refl 0⟩,
    (C12_dispatch_invocations
      (Sys.init (fun a => if a = 0x4C then 5 else 0) (fun _ => 0) (fun _ => 0)) (fun _ => 0)
      ⟨le_refl 0, le_refl 0⟩).1.trans (by decide)⟩

/-- C13: when the two status reads succeed, returning `s0` and `s1`, dispatch
returns `IRQ_HANDLED` if and only if `s0` or `s1` is not 0, and `IRQ_NONE` if
and only if both are 0. -/
theorem C13_dispatch_result (s : Sys) (irq_status : Nat → Nat) (h : status_reads_ok s) :
    ((kts1622_irq_handler s irq_status).1 = IRQ_HANDLED ↔
      (s.regs 0x4C % 256 ≠ 0 ∨ s.regs 0x4D % 256 ≠ 0)) ∧
    ((kts1622_irq_handler s irq_status).1 = IRQ_NONE ↔
      (s.regs 0x4C % 256 = 0 ∧ s.regs 0x4D % 256 = 0)) := by
  have hr := (irq_handler_spec s irq_status h).2.1
  have p0 := popcount8_pos (s.regs 0x4C % 256) (Nat.mod_lt _ (by norm_num))
  have p1 := popcount8_pos (s.regs 0x4D % 256) (Nat.mod_lt _ (by norm_num))
  have hne : IRQ_HANDLED ≠ IRQ_NONE := by decide
  have hpos : 0 < popcount8 (s.regs 0x4C % 256) + popcount8 (s.regs 0x4D % 256) ↔
      (s.regs 0x4C % 256 ≠ 0 ∨ s.regs 0x4D % 256 ≠ 0) := by
    rw [← p0, ← p1]
    omega
  rw [hr]
  by_cases hz : 0 < popcount8 (s.regs 0x4C % 256) + popcount8 (s.regs 0x4D % 256)
  · rw [if_pos hz]
    have hor := hpos.mp hz
    refine ⟨⟨fun _ => hor, fun _ => rfl⟩, ⟨fun e => absurd e hne, fun ⟨z0, z1⟩ => ?_⟩⟩
    rcases hor with h0 | h1
    · exact absurd z0 h0
    · exact absurd z1 h1
  · rw [if_neg hz]
    have hnor : ¬ (s.regs 0x4C % 256 ≠ 0 ∨ s.regs 0x4D % 256 ≠ 0) := fun hh => hz (hpos.mpr hh)
    refine ⟨⟨fun e => absurd e.symm hne, fun hh => absurd hh hnor⟩, ⟨fun _ => ?_, fun _ => rfl⟩⟩
    constructor
    · by_contra h0
      exact hnor (Or.inl h0)
    · by_contra h1
      exact hnor (Or.inr h1)

/-- C13, witness: status 0b00000101 on port 0 and 0 on port 1: the result is
`IRQ_HANDLED`. -/
theorem C13_dispatch_result_witness :
    status_reads_ok (Sys.init (fun a => if a = 0x4C then 5 else 0) (fun _ => 0) (fun _ => 0)) ∧
    (kts1622_irq_handler
      (Sys.init (fun a => if a = 0x4C then 5 else 0) (fun _ => 0) (fun _ => 0))
      (fun _ => 0)).1 = IRQ_HANDLED :=
  ⟨⟨le_refl 0, le_refl 0⟩,
    (C13_dispatch_result
      (Sys.init (fun a => if a = 0x4C then 5 else 0) (fun _ => 0) (fun _ => 0)) (fun _ => 0)
      ⟨le_refl 0, le_refl 0⟩).1.mpr (Or.inl (by decide))⟩

/-! ## C14: software reset -/

/-- What `kts1622_software_reset` does for any configured address and any
behaviour of the transport: one plain byte write of 0x06 while the client
address is 0x00, whose result is returned; on return the client address is the
configured one reduced modulo 256, so it is restored when it is below 256. -/
theorem software_reset_spec (s : Sys) :
    events_since s (kts1622_software_reset s).2 = [Event.write_byte 0x00 0x06] ∧
    (kts1622_software_reset s).1 = (if s.outcome s.count < 0 then s.outcome s.count else 0) ∧
    (kts1622_software_reset s).2.chip.addr = s.chip.addr % 256 ∧
    (s.chip.addr < 256 → (kts1622_software_reset s).2.chip.addr = s.chip.addr) := by
  have hadd : (kts1622_software_reset s).2.chip.addr = s.chip.addr % 256 := rfl
  refine ⟨?_, ?_, hadd, fun hlt => ?_⟩
  · apply events_since_append
    simp only [kts1622_software_reset, i2c_smbus_write_byte, emit]
    split <;> rfl
  · simp only [kts1622_software_reset, i2c_smbus_write_byte, emit]
    split <;> rfl
  · rw [hadd, Nat.mod_eq_of_lt hlt]

/-- C14, at the failing input: the client is configured at the 10-bit address
0x150.  `kts1622_software_reset` sends the byte 0x06 while the client address
is 0x00 and returns the result of that write, but on return the client address
is 0x50, not 0x150: the address is saved in a `u8`. -/
theorem C14_reset_truncates_address :
    events_since
      { Sys.init (fun _ => 0) (fun _ => 0) (fun _ => 0) with
        chip := { addr := 0x150, irq_mask := fun _ => 0, irq_edge := fun _ => 0 } }
      (kts1622_software_reset
        { Sys.init (fun _ => 0) (fun _ => 0) (fun _ => 0) with
          chip := { addr := 0x150, irq_mask := fun _ => 0, irq_edge := fun _ => 0 } }).2
      = [Event.write_byte 0x00 0x06] ∧
    (kts1622_software_reset
      { Sys.init (fun _ => 0) (fun _ => 0) (fun _ => 0) with
        chip := { addr := 0x150, irq_mask := fun _ => 0, irq_edge := fun _ => 0 } }).1 = 0 ∧
    (kts1622_software_reset
      { Sys.init (fun _ => 0) (fun _ => 0) (fun _ => 0) with
        chip := { addr := 0x150, irq_mask := fun _ => 0, irq_edge := fun _ => 0 } }).2.chip.addr
      = 0x50 := by
  decide

/-! ## C15: set_direction then get_direction -/

theorem get_direction_ret (s : Sys) (q : Nat) (hq : q < 16) (h : transport_ok s) :
    (kts1622_gpio_get_direction s q).1 =
      if (s.regs (0x06 + q / 8)).testBit (q % 8) = true then 1 else 0 := by
  have hc : (KTS1622_CONFIG_0 + q / 8) % 256 = 0x06 + q / 8 :=
    port_addr 0x06 q (by norm_num) hq
  have hb : q % 8 < 8 := Nat.mod_lt _ (by norm_num)
  rw [get_direction_ok s q h, hc]
  by_cases ht : (s.regs (0x06 + q / 8)).testBit (q % 8) = true
  · have hn : s.regs (0x06 + q / 8) % 256 &&& 1 <<< (q % 8) ≠ 0 := by
      rw [and_shift_ne_zero, testBit_mod_256 _ _ hb]
      exact ht
    simp only [if_pos hn, if_pos ht]
  · have hn : ¬ (s.regs (0x06 + q / 8) % 256 &&& 1 <<< (q % 8) ≠ 0) := by
      rw [and_shift_ne_zero, testBit_mod_256 _ _ hb]
      exact ht
    simp only [if_neg hn, if_neg ht]

/-- C15: on a transport that succeeds, for every pin in [0,15] and every
direction `d` (1 = input, 0 = output), `set_direction(pin, d)` returns 0 and
leaves bit `pin%8` of the config register `0x06 + pin/8` at 1 for input and 0
for output; a following `get_direction(pin)` returns `d`, and
`get_direction(q)` of every other pin `q` returns what it returned before. -/
theorem C15_set_get_direction (s : Sys) (pin : Nat) (d : Int) (hpin : pin < 16)
    (hd : d = PIN_INPUT ∨ d = PIN_OUTPUT) (h : transport_ok s) :
    (kts1622_gpio_set_direction s pin d).1 = 0 ∧
    ((kts1622_gpio_set_direction s pin d).2.regs (0x06 + pin / 8)).testBit (pin % 8) =
      decide (d = PIN_INPUT) ∧
    (kts1622_gpio_get_direction (kts1622_gpio_set_direction s pin d).2 pin).1 = d ∧
    (∀ q, q < 16 → q ≠ pin →
      (kts1622_gpio_get_direction (kts1622_gpio_set_direction s pin d).2 q).1 =
        (kts1622_gpio_get_direction s q).1) := by
  have hc : (KTS1622_CONFIG_0 + pin / 8) % 256 = 0x06 + pin / 8 :=
    port_addr 0x06 pin (by norm_num) hpin
  have hbit : pin % 8 < 8 := Nat.mod_lt _ (by norm_num)
  have hregs : (kts1622_gpio_set_direction s pin d).2.regs =
      Function.update s.regs (0x06 + pin / 8)
        (bit_set_byte (s.regs (0x06 + pin / 8) % 256) (pin % 8)
          (if d = PIN_OUTPUT then 0 else 1)) := by
    rw [set_direction_ok s pin d h, hc]
  have hok : transport_ok (kts1622_gpio_set_direction s pin d).2 := by
    rw [set_direction_ok s pin d h]
    exact h
  have hbitval : ((kts1622_gpio_set_direction s pin d).2.regs (0x06 + pin / 8)).testBit
      (pin % 8) = decide (d = PIN_INPUT) := by
    rw [hregs, Function.update_same, testBit_bit_set_byte _ _ _ _ hbit hbit]
    rcases hd with rfl | rfl <;> simp [PIN_INPUT, PIN_OUTPUT]
  refine ⟨by rw [set_direction_ok s pin d h], hbitval, ?_, ?_⟩
  · rw [get_direction_ret _ pin hpin hok, hbitval]
    rcases hd with rfl | rfl <;> simp [PIN_INPUT, PIN_OUTPUT]
  · intro q hq hne
    rw [get_direction_ret _ q hq hok, get_direction_ret s q hq h, hregs]
    have hqb : q % 8 < 8 := Nat.mod_lt _ (by norm_num)
    by_cases hp : (0x06 + q / 8 : Nat) = 0x06 + pin / 8
    · have hbne : q % 8 ≠ pin % 8 := by omega
      rw [hp, Function.update_same, testBit_bit_set_byte _ _ _ _ hbit hqb, if_neg hbne,
        testBit_mod_256 _ _ hqb]
    · rw [Function.update_noteq hp]

/-- C15, witness: pin 5 of a device whose registers hold 0 (every pin an
output) is made an input. -/
theorem C15_set_get_direction_witness :
    (5 < 16) ∧ (PIN_INPUT = PIN_INPUT ∨ PIN_INPUT = PIN_OUTPUT) ∧
    (kts1622_gpio_get_direction
      (kts1622_gpio_set_direction (Sys.init (fun _ => 0) (fun _ => 0) (fun _ => 0)) 5
        PIN_INPUT).2 5).1 = PIN_INPUT :=
  ⟨by decide, Or.inl rfl,
    (C15_set_get_direction (Sys.init (fun _ => 0) (fun _ => 0) (fun _ => 0)) 5 PIN_INPUT
      (by decide) (Or.inl rfl) (fun _ => le_refl 0)).2.2.1⟩

/-! ## C16: drive mode -/

/-- C16: on a transport that succeeds, for every pin in [0,15] and every prior
register state, `set_drive_mode(pin, OpenDrain)` returns 0 and leaves bit
`pin%8` of the individual-pin-output-mode register `0x58 + pin/8` at 0,
`set_drive_mode(pin, PushPull)` returns 0 and leaves it at 1; every other bit
of that register and every other register is as before. -/
theorem C16_set_drive_mode (s : Sys) (pin mode : Nat) (ret : Int) (hpin : pin < 16)
    (hmode : mode = PIN_CONFIG_DRIVE_OPEN_DRAIN ∨ mode = PIN_CONFIG_DRIVE_PUSH_PULL)
    (h : transport_ok s) :
    (kts1622_gpio_set_open_drain s pin mode ret).1 = 0 ∧
    ((kts1622_gpio_set_open_drain s pin mode ret).2.regs (0x58 + pin / 8)).testBit (pin % 8) =
      decide (mode = PIN_CONFIG_DRIVE_PUSH_PULL) ∧
    (∀ b, b < 8 → b ≠ pin % 8 →
      ((kts1622_gpio_set_open_drain s pin mode ret).2.regs (0x58 + pin / 8)).testBit b =
        (s.regs (0x58 + pin / 8)).testBit b) ∧
    (∀ a, a ≠ 0x58 + pin / 8 →
      (kts1622_gpio_set_open_drain s pin mode ret).2.regs a = s.regs a) := by
  have ha : (KTS1622_INDIVIDUAL_PIN_OUTPUT_0 + pin / 8) % 256 = 0x58 + pin / 8 :=
    port_addr 0x58 pin (by norm_num) hpin
  have hbit : pin % 8 < 8 := Nat.mod_lt _ (by norm_num)
  have hregs : (kts1622_gpio_set_open_drain s pin mode ret).2.regs =
      Function.update s.regs (0x58 + pin / 8)
        (bit_set_byte (s.regs (0x58 + pin / 8) % 256) (pin % 8)
          (if mode = PIN_CONFIG_DRIVE_OPEN_DRAIN then 0 else 1)) := by
    rw [set_open_drain_ok s pin mode ret h hmode, ha]
    rfl
  refine ⟨by rw [set_open_drain_ok s pin mode ret h hmode], ?_, ?_, ?_⟩
  · rw [hregs, Function.update_same, testBit_bit_set_byte _ _ _ _ hbit hbit]
    rcases hmode with rfl | rfl <;>
      simp [PIN_CONFIG_DRIVE_OPEN_DRAIN, PIN_CONFIG_DRIVE_PUSH_PULL]
  · intro b hb hne
    rw [hregs, Function.update_same, testBit_bit_set_byte _ _ _ _ hbit hb, if_neg hne,
      testBit_mod_256 _ _ hb]
  · intro a hne
    rw [hregs, Function.update_noteq hne]

/-- C16, witness: `set_drive_mode(12, OpenDrain)` on a device whose registers
all hold 0xFF. -/
theorem C16_set_drive_mode_witness :
    (12 < 16) ∧
    (PIN_CONFIG_DRIVE_OPEN_DRAIN = PIN_CONFIG_DRIVE_OPEN_DRAIN ∨
      PIN_CONFIG_DRIVE_OPEN_DRAIN = PIN_CONFIG_DRIVE_PUSH_PULL) ∧
    ((kts1622_gpio_set_open_drain (Sys.init (fun _ => 0xFF) (fun _ => 0) (fun _ => 0)) 12
      PIN_CONFIG_DRIVE_OPEN_DRAIN 0).2.regs (0x58 + 12 / 8)).testBit (12 % 8) =
      decide (PIN_CONFIG_DRIVE_OPEN_DRAIN = PIN_CONFIG_DRIVE_PUSH_PULL) :=
  ⟨by decide, Or.inl rfl,
    (C16_set_drive_mode (Sys.init (fun _ => 0xFF) (fun _ => 0) (fun _ => 0)) 12
      PIN_CONFIG_DRIVE_OPEN_DRAIN 0 (by decide) (Or.inl rfl) (fun _ => le_refl 0)).2.1⟩

/-! ## C17: mask and unmask -/

/-- C17: for every pin in [0,15] and every cache state, `mask(pin)` sets and
`unmask(pin)` clears bit `pin%8` of mask-cache byte `pin/8`; the other seven
bits of that byte, the mask byte of the other port and the edge cache are as
before, and neither operation touches the bus: the trace, the transaction
count and the register file are as before. -/
theorem C17_mask_unmask_frame (s : Sys) (pin : Nat) (_hpin : pin < 16) :
    (((kts1622_irq_mask s pin).chip.irq_mask (pin / 8)).testBit (pin % 8) = true ∧
      ((kts1622_irq_unmask s pin).chip.irq_mask (pin / 8)).testBit (pin % 8) = false) ∧
    (∀ b, b < 8 → b ≠ pin % 8 →
      ((kts1622_irq_mask s pin).chip.irq_mask (pin / 8)).testBit b =
        (s.chip.irq_mask (pin / 8)).testBit b ∧
      ((kts1622_irq_unmask s pin).chip.irq_mask (pin / 8)).testBit b =
        (s.chip.irq_mask (pin / 8)).testBit b) ∧
    (∀ port, port ≠ pin / 8 →
      (kts1622_irq_mask s pin).chip.irq_mask port = s.chip.irq_mask port ∧
      (kts1622_irq_unmask s pin).chip.irq_mask port = s.chip.irq_mask port) ∧
    ((kts1622_irq_mask s pin).chip.irq_edge = s.chip.irq_edge ∧
      (kts1622_irq_unmask s pin).chip.irq_edge = s.chip.irq_edge) ∧
    ((kts1622_irq_mask s pin).trace = s.trace ∧ (kts1622_irq_mask s pin).count = s.count ∧
      (kts1622_irq_mask s pin).regs = s.regs) ∧
    ((kts1622_irq_unmask s pin).trace = s.trace ∧ (kts1622_irq_unmask s pin).count = s.count ∧
      (kts1622_irq_unmask s pin).regs = s.regs) := by
  have hbit : pin % 8 < 8 := Nat.mod_lt _ (by norm_num)
  have hm : (kts1622_irq_mask s pin).chip.irq_mask (pin / 8) =
      (s.chip.irq_mask (pin / 8) ||| (1 <<< (pin % 8))) % 256 := by
    simp [kts1622_irq_mask]
  have hu : (kts1622_irq_unmask s pin).chip.irq_mask (pin / 8) =
      (s.chip.irq_mask (pin / 8) &&& not32 (1 <<< (pin % 8))) % 256 := by
    simp [kts1622_irq_unmask]
  refine ⟨⟨?_, ?_⟩, ?_, ?_, ⟨rfl, rfl⟩, ⟨rfl, rfl, rfl⟩, ⟨rfl, rfl, rfl⟩⟩
  · rw [hm, testBit_or_shift _ _ _ hbit]
    simp
  · rw [hu, testBit_and_not_shift _ _ _ hbit hbit]
    simp
  · intro b hb hne
    rw [hm, hu, testBit_or_shift _ _ _ hb, testBit_and_not_shift _ _ _ hbit hb]
    simp [hne]
  · intro port hne
    constructor
    · simp [kts1622_irq_mask, Function.update_noteq hne]
    · simp [kts1622_irq_unmask, Function.update_noteq hne]

/-- C17, witness: pin 10 with an empty mask cache. -/
theorem C17_mask_unmask_frame_witness :
    (10 < 16) ∧
    ((kts1622_irq_mask (Sys.init (fun _ => 0) (fun _ => 0) (fun _ => 0)) 10).chip.irq_mask
      (10 / 8)).testBit (10 % 8) = true :=
  ⟨by decide,
    (C17_mask_unmask_frame (Sys.init (fun _ => 0) (fun _ => 0) (fun _ => 0)) 10
      (by decide)).1.1⟩

/-! ## C18: unsupported trigger types -/

/-- C18: for every pin and every type value other than rising, falling, both,
level-low and level-high (the value 0 included), `set_edge_type` returns
`-EINVAL` and leaves the whole state, the edge and mask caches in particular,
as it was; for each of the five supported values it returns 0. -/
theorem C18_set_type_unsupported (s : Sys) (hwirq type : Nat) :
    (type ≠ IRQ_TYPE_EDGE_RISING → type ≠ IRQ_TYPE_EDGE_FALLING →
      type ≠ IRQ_TYPE_EDGE_BOTH → type ≠ IRQ_TYPE_LEVEL_LOW → type ≠ IRQ_TYPE_LEVEL_HIGH →
      (kts1622_irq_set_type s hwirq type).1 = - EINVAL ∧
      (kts1622_irq_set_type s hwirq type).2 = s) ∧
    (type = IRQ_TYPE_EDGE_RISING ∨ type = IRQ_TYPE_EDGE_FALLING ∨
      type = IRQ_TYPE_EDGE_BOTH ∨ type = IRQ_TYPE_LEVEL_LOW ∨ type = IRQ_TYPE_LEVEL_HIGH →
      (kts1622_irq_set_type s hwirq type).1 = 0) := by
  constructor
  · intro h1 h2 h3 h4 h5
    have hv : irq_type_val type = none := by
      simp [irq_type_val, h1, h2, h3, h4, h5]
    simp only [kts1622_irq_set_type, hv]
    exact ⟨trivial, trivial⟩
  · intro ht
    rcases ht with rfl | rfl | rfl | rfl | rfl <;> rfl

/-- C18, witness: the type 0 (`IRQ_TYPE_NONE`) on pin 4 is refused and the
type `IRQ_TYPE_LEVEL_LOW` is accepted. -/
theorem C18_set_type_unsupported_witness :
    (kts1622_irq_set_type (Sys.init (fun _ => 0) (fun _ => 0) (fun _ => 0xFF)) 4
      IRQ_TYPE_NONE).1 = - EINVAL ∧
    (kts1622_irq_set_type (Sys.init (fun _ => 0) (fun _ => 0) (fun _ => 0xFF)) 4
      IRQ_TYPE_LEVEL_LOW).1 = 0 :=
  ⟨((C18_set_type_unsupported (Sys.init (fun _ => 0) (fun _ => 0) (fun _ => 0xFF)) 4
      IRQ_TYPE_NONE).1 (by decide) (by decide) (by decide) (by decide) (by decide)).1,
    (C18_set_type_unsupported (Sys.init (fun _ => 0) (fun _ => 0) (fun _ => 0xFF)) 4
      IRQ_TYPE_LEVEL_LOW).2 (Or.inr (Or.inr (Or.inr (Or.inl rfl))))⟩

/-! ## C19: a commit after a failed commit -/

theorem irq_bus_sync_port_count (s : Sys) (port : Nat) :
    (kts1622_irq_bus_sync_port s port).count = s.count + 3 := by
  simp only [kts1622_irq_bus_sync_port, reg_write_count]

theorem irq_bus_sync_port_outcome (s : Sys) (port : Nat) :
    (kts1622_irq_bus_sync_port s port).outcome = s.outcome := by
  simp only [kts1622_irq_bus_sync_port, reg_write_outcome]

theorem irq_bus_sync_port_regs_other (s : Sys) (port x : Nat) (hp : port < 2)
    (h1 : x ≠ 0x4A + port) (h2 : x ≠ 0x50 + port * 2) (h3 : x ≠ 0x50 + port * 2 + 1) :
    (kts1622_irq_bus_sync_port s port).regs x = s.regs x := by
  have a1 : (KTS1622_INTERRUPT_MASK_0 + port) % 256 = 0x4A + port :=
    Nat.mod_eq_of_lt (by simp only [KTS1622_INTERRUPT_MASK_0]; omega)
  have a2 : (KTS1622_INTERRUPT_EDGE_0A + port * 2) % 256 = 0x50 + port * 2 :=
    Nat.mod_eq_of_lt (by simp only [KTS1622_INTERRUPT_EDGE_0A]; omega)
  have a3 : (KTS1622_INTERRUPT_EDGE_0A + port * 2 + 1) % 256 = 0x50 + port * 2 + 1 :=
    Nat.mod_eq_of_lt (by simp only [KTS1622_INTERRUPT_EDGE_0A]; omega)
  simp only [kts1622_irq_bus_sync_port]
  rw [reg_write_regs_other _ _ _ _ (by rw [a3]; exact h3),
    reg_write_regs_other _ _ _ _ (by rw [a2]; exact h2),
    reg_write_regs_other _ _ _ _ (by rw [a1]; exact h1)]

/-- One round of the loop of commit whose three writes succeed: the three
registers of the port hold the three cache bytes. -/
theorem irq_bus_sync_port_regs (s : Sys) (port : Nat) (hp : port < 2)
    (h0 : 0 ≤ s.outcome s.count) (h1 : 0 ≤ s.outcome (s.count + 1))
    (h2 : 0 ≤ s.outcome (s.count + 1 + 1)) :
    (kts1622_irq_bus_sync_port s port).regs (0x4A + port) = s.chip.irq_mask port % 256 ∧
    (kts1622_irq_bus_sync_port s port).regs (0x50 + port * 2) =
      s.chip.irq_edge (port * 2) % 256 ∧
    (kts1622_irq_bus_sync_port s port).regs (0x50 + port * 2 + 1) =
      s.chip.irq_edge (port * 2 + 1) % 256 := by
  have a1 : (KTS1622_INTERRUPT_MASK_0 + port) % 256 = 0x4A + port :=
    Nat.mod_eq_of_lt (by simp only [KTS1622_INTERRUPT_MASK_0]; omega)
  have a2 : (KTS1622_INTERRUPT_EDGE_0A + port * 2) % 256 = 0x50 + port * 2 :=
    Nat.mod_eq_of_lt (by simp only [KTS1622_INTERRUPT_EDGE_0A]; omega)
  have a3 : (KTS1622_INTERRUPT_EDGE_0A + port * 2 + 1) % 256 = 0x50 + port * 2 + 1 :=
    Nat.mod_eq_of_lt (by simp only [KTS1622_INTERRUPT_EDGE_0A]; omega)
  have w1 := reg_write_regs_same s (KTS1622_INTERRUPT_MASK_0 + port) (s.chip.irq_mask port) h0
  have w2 := reg_write_regs_same
    (kts1622_reg_write s (KTS1622_INTERRUPT_MASK_0 + port) (s.chip.irq_mask port)).2
    (KTS1622_INTERRUPT_EDGE_0A + port * 2)
    ((kts1622_reg_write s (KTS1622_INTERRUPT_MASK_0 + port)
      (s.chip.irq_mask port)).2.chip.irq_edge (port * 2))
    (by rw [reg_write_outcome, reg_write_count]; exact h1)
  have w3 := reg_write_regs_same
    (kts1622_reg_write
      (kts1622_reg_write s (KTS1622_INTERRUPT_MASK_0 + port) (s.chip.irq_mask port)).2
      (KTS1622_INTERRUPT_EDGE_0A + port * 2)
      ((kts1622_reg_write s (KTS1622_INTERRUPT_MASK_0 + port)
        (s.chip.irq_mask port)).2.chip.irq_edge (port * 2))).2
    (KTS1622_INTERRUPT_EDGE_0A + port * 2 + 1)
    ((kts1622_reg_write
      (kts1622_reg_write s (KTS1622_INTERRUPT_MASK_0 + port) (s.chip.irq_mask port)).2
      (KTS1622_INTERRUPT_EDGE_0A + port * 2)
      ((kts1622_reg_write s (KTS1622_INTERRUPT_MASK_0 + port)
        (s.chip.irq_mask port)).2.chip.irq_edge (port * 2))).2.chip.irq_edge (port * 2 + 1))
    (by rw [reg_write_outcome, reg_write_outcome, reg_write_count, reg_write_count]; exact h2)
  rw [a1] at w1
  simp only [a2, reg_write_chip] at w2
  simp only [a3, reg_write_chip] at w3
  simp only [kts1622_irq_bus_sync_port, reg_write_chip]
  refine ⟨?_, ?_, w3⟩
  · rw [reg_write_regs_other _ _ _ _ (by rw [a3]; omega),
      reg_write_regs_other _ _ _ _ (by rw [a2]; omega)]
    exact w1
  · rw [reg_write_regs_other _ _ _ _ (by rw [a3]; omega)]
    exact w2

theorem irq_bus_sync_unlock_eq (s : Sys) :
    kts1622_irq_bus_sync_unlock s =
      mutex_unlock (kts1622_irq_bus_sync_port (kts1622_irq_bus_sync_port s 0) 1)
        Lock.irq_lock := rfl

theorem irq_bus_sync_unlock_count (s : Sys) :
    (kts1622_irq_bus_sync_unlock s).count = s.count + 6 := by
  rw [irq_bus_sync_unlock_eq]
  show (kts1622_irq_bus_sync_port (kts1622_irq_bus_sync_port s 0) 1).count = s.count + 6
  rw [irq_bus_sync_port_count, irq_bus_sync_port_count]

theorem irq_bus_sync_unlock_outcome (s : Sys) :
    (kts1622_irq_bus_sync_unlock s).outcome = s.outcome := by
  rw [irq_bus_sync_unlock_eq]
  show (kts1622_irq_bus_sync_port (kts1622_irq_bus_sync_port s 0) 1).outcome = s.outcome
  rw [irq_bus_sync_port_outcome, irq_bus_sync_port_outcome]

/-- A commit whose six writes succeed leaves the six registers equal to the
cache bytes. -/
theorem irq_bus_sync_unlock_regs (s : Sys) (h : ∀ i, i < 6 → 0 ≤ s.outcome (s.count + i)) :
    (kts1622_irq_bus_sync_unlock s).regs 0x4A = s.chip.irq_mask 0 % 256 ∧
    (kts1622_irq_bus_sync_unlock s).regs 0x4B = s.chip.irq_mask 1 % 256 ∧
    (kts1622_irq_bus_sync_unlock s).regs 0x50 = s.chip.irq_edge 0 % 256 ∧
    (kts1622_irq_bus_sync_unlock s).regs 0x51 = s.chip.irq_edge 1 % 256 ∧
    (kts1622_irq_bus_sync_unlock s).regs 0x52 = s.chip.irq_edge 2 % 256 ∧
    (kts1622_irq_bus_sync_unlock s).regs 0x53 = s.chip.irq_edge 3 % 256 := by
  obtain ⟨p1, p2, p3⟩ := irq_bus_sync_port_regs s 0 (by norm_num) (h 0 (by norm_num))
    (h 1 (by norm_num)) (h 2 (by norm_num))
  obtain ⟨q1, q2, q3⟩ := irq_bus_sync_port_regs (kts1622_irq_bus_sync_port s 0) 1 (by norm_num)
    (by rw [irq_bus_sync_port_outcome, irq_bus_sync_port_count]; exact h 3 (by norm_num))
    (by rw [irq_bus_sync_port_outcome, irq_bus_sync_port_count]; exact h 4 (by norm_num))
    (by rw [irq_bus_sync_port_outcome, irq_bus_sync_port_count]; exact h 5 (by norm_num))
  rw [irq_bus_sync_port_chip] at q1 q2 q3
  have hreg : ∀ x, (kts1622_irq_bus_sync_unlock s).regs x =
      (kts1622_irq_bus_sync_port (kts1622_irq_bus_sync_port s 0) 1).regs x := fun _ => rfl
  refine ⟨?_, ?_, ?_, ?_, ?_, ?_⟩
  · rw [hreg, irq_bus_sync_port_regs_other _ 1 _ (by norm_num) (by norm_num) (by norm_num)
      (by norm_num)]
    exact p1
  · rw [hreg]
    exact q1
  · rw [hreg, irq_bus_sync_port_regs_other _ 1 _ (by norm_num) (by norm_num) (by norm_num)
      (by norm_num)]
    exact p2
  · rw [hreg, irq_bus_sync_port_regs_other _ 1 _ (by norm_num) (by norm_num) (by norm_num)
      (by norm_num)]
    exact p3
  · rw [hreg]
    exact q2
  · rw [hreg]
    exact q3

/-- C19: for every cache state and every pattern of write failures during a
first commit, the cache after that commit is the cache before it, and a
following commit whose six writes all succeed leaves the interrupt-mask
registers 0x4A, 0x4B and the edge-type registers 0x50..0x53 equal to the
corresponding cache bytes, whichever writes of the first commit reached the
device. -/
theorem C19_commit_after_failed_commit (s : Sys)
    (h : ∀ i, i < 6 → 0 ≤ s.outcome (s.count + 6 + i)) :
    (kts1622_irq_bus_sync_unlock s).chip = s.chip ∧
    (kts1622_irq_bus_sync_unlock (kts1622_irq_bus_sync_unlock s)).chip = s.chip ∧
    (kts1622_irq_bus_sync_unlock (kts1622_irq_bus_sync_unlock s)).regs 0x4A =
      s.chip.irq_mask 0 % 256 ∧
    (kts1622_irq_bus_sync_unlock (kts1622_irq_bus_sync_unlock s)).regs 0x4B =
      s.chip.irq_mask 1 % 256 ∧
    (kts1622_irq_bus_sync_unlock (kts1622_irq_bus_sync_unlock s)).regs 0x50 =
      s.chip.irq_edge 0 % 256 ∧
    (kts1622_irq_bus_sync_unlock (kts1622_irq_bus_sync_unlock s)).regs 0x51 =
      s.chip.irq_edge 1 % 256 ∧
    (kts1622_irq_bus_sync_unlock (kts1622_irq_bus_sync_unlock s)).regs 0x52 =
      s.chip.irq_edge 2 % 256 ∧
    (kts1622_irq_bus_sync_unlock (kts1622_irq_bus_sync_unlock s)).regs 0x53 =
      s.chip.irq_edge 3 % 256 := by
  have h2 : ∀ i, i < 6 → 0 ≤ (kts1622_irq_bus_sync_unlock s).outcome
      ((kts1622_irq_bus_sync_unlock s).count + i) := by
    intro i hi
    rw [irq_bus_sync_unlock_outcome, irq_bus_sync_unlock_count]
    exact h i hi
  have hr := irq_bus_sync_unlock_regs (kts1622_irq_bus_sync_unlock s) h2
  rw [irq_bus_sync_unlock_chip] at hr
  exact ⟨irq_bus_sync_unlock_chip s,
    by rw [irq_bus_sync_unlock_chip, irq_bus_sync_unlock_chip], hr⟩

/-- C19, witness: every write of the first commit fails with -EIO, every
write of the second commit succeeds. -/
theorem C19_commit_after_failed_commit_witness :
    (kts1622_irq_bus_sync_unlock (kts1622_irq_bus_sync_unlock
      { Sys.init (fun _ => 0) (fun p => 0x10 + p) (fun i => 0x20 + i) with
        outcome := fun n => if n < 6 then - EIO else 0 })).regs 0x4A = (0x10 + 0) % 256 :=
  (C19_commit_after_failed_commit
    { Sys.init (fun _ => 0) (fun p => 0x10 + p) (fun i => 0x20 + i) with
      outcome := fun n => if n < 6 then - EIO else 0 }
    (fun i _ => by
      show (0 : Int) ≤ if 0 + 6 + i < 6 then - EIO else 0
      rw [if_neg (by omega)])).2.2.1

/-! ## C20: errors of direction_output -/

/-- C20, counterexample: the read of the output register, the first
transaction of `direction_output(3, 1)`, fails with -EIO; the call returns 0,
the output bit of pin 3 is still 0 and the pin has been made an output. -/
theorem C20_direction_output_drops_error :
    (kts1622_gpio_direction_output
      { Sys.init (fun a => if a = 0x06 then 0xFF else 0) (fun _ => 0) (fun _ => 0) with
        outcome := fun n => if n = 0 then - EIO else 0 } 3 1).1 = 0 ∧
    ((kts1622_gpio_direction_output
      { Sys.init (fun a => if a = 0x06 then 0xFF else 0) (fun _ => 0) (fun _ => 0) with
        outcome := fun n => if n = 0 then - EIO else 0 } 3 1).2.regs 0x02).testBit 3 = false ∧
    ((kts1622_gpio_direction_output
      { Sys.init (fun a => if a = 0x06 then 0xFF else 0) (fun _ => 0) (fun _ => 0) with
        outcome := fun n => if n = 0 then - EIO else 0 } 3 1).2.regs 0x06).testBit 3 = false := by
  decide

/-- C20, amended: for every pin in [0,15], every value and every behaviour of
the transport, `direction_output` returns the result of its set_direction step
alone: with `c` the number of transactions issued once the set_value step is
over (one more than before the call when the read of the output register
failed, two more otherwise), it returns the error of transaction `c` (the read
of the config register) if that fails, else the error of transaction `c + 1`
(the write of the config register) if that fails, else 0.  A failure during
the set_value step is not returned. -/
theorem C20_direction_output_result (s : Sys) (pin : Nat) (val : Int) (_hpin : pin < 16) :
    (kts1622_gpio_set_value s pin val).count =
      s.count + (if s.outcome s.count < 0 then 1 else 2) ∧
    (kts1622_gpio_direction_output s pin val).1 =
      (if s.outcome (kts1622_gpio_set_value s pin val).count < 0
        then s.outcome (kts1622_gpio_set_value s pin val).count
       else if s.outcome ((kts1622_gpio_set_value s pin val).count + 1) < 0
        then s.outcome ((kts1622_gpio_set_value s pin val).count + 1)
       else 0) := by
  have ho : (KTS1622_OUTPUT_0 + pin / 8) % 256 < 256 := addr_lt _ _
  have hc : (KTS1622_CONFIG_0 + pin / 8) % 256 < 256 := addr_lt _ _
  have hout : (kts1622_gpio_set_value s pin val).outcome = s.outcome := by
    simp only [kts1622_gpio_set_value]
    exact reg_bit_set_outcome (mutex_lock s Lock.i2c_lock) _ _ _ ho
  constructor
  · simp only [kts1622_gpio_set_value]
    rcases reg_bit_set_cases (mutex_lock s Lock.i2c_lock) ((KTS1622_OUTPUT_0 + pin / 8) % 256)
      (pin % 8) (if val ≠ 0 then 1 else 0) ho with ⟨h0, e⟩ | ⟨h0, _, e⟩ | ⟨h0, _, e⟩
    · have h0' : s.outcome s.count < 0 := h0
      rw [e, if_pos h0']
      rfl
    · have h0' : ¬ s.outcome s.count < 0 := not_lt.mpr h0
      rw [e, if_neg h0']
      rfl
    · have h0' : ¬ s.outcome s.count < 0 := not_lt.mpr h0
      rw [e, if_neg h0']
      rfl
  · have hres : (kts1622_gpio_direction_output s pin val).1 =
        (kts1622_reg_bit_set (mutex_lock (kts1622_gpio_set_value s pin val) Lock.i2c_lock)
          ((KTS1622_CONFIG_0 + pin / 8) % 256) (pin % 8) 0).1 := by
      simp only [kts1622_gpio_direction_output, kts1622_gpio_set_direction, if_true]
    rw [hres]
    rcases reg_bit_set_cases (mutex_lock (kts1622_gpio_set_value s pin val) Lock.i2c_lock)
      ((KTS1622_CONFIG_0 + pin / 8) % 256) (pin % 8) 0 hc with ⟨h0, e⟩ | ⟨h0, h1, e⟩ | ⟨h0, h1, e⟩
    · have h0' : s.outcome (kts1622_gpio_set_value s pin val).count < 0 := by
        rw [← hout]; exact h0
      rw [e, if_pos h0']
      show (kts1622_gpio_set_value s pin val).outcome _ = _
      rw [hout]
      rfl
    · have h0' : ¬ s.outcome (kts1622_gpio_set_value s pin val).count < 0 := by
        rw [← hout]; exact not_lt.mpr h0
      have h1' : s.outcome ((kts1622_gpio_set_value s pin val).count + 1) < 0 := by
        rw [← hout]; exact h1
      rw [e, if_neg h0', if_pos h1']
      show (kts1622_gpio_set_value s pin val).outcome _ = _
      rw [hout]
      rfl
    · have h0' : ¬ s.outcome (kts1622_gpio_set_value s pin val).count < 0 := by
        rw [← hout]; exact not_lt.mpr h0
      have h1' : ¬ s.outcome ((kts1622_gpio_set_value s pin val).count + 1) < 0 := by
        rw [← hout]; exact not_lt.mpr h1
      rw [e, if_neg h0', if_neg h1']

/-- C20, witness: the write of the config register, the fourth transaction of
`direction_output(3, 1)`, fails with -EIO and the call returns -EIO. -/
theorem C20_direction_output_result_witness :
    (3 < 16) ∧
    (kts1622_gpio_direction_output
      { Sys.init (fun _ => 0) (fun _ => 0) (fun _ => 0) with
        outcome := fun n => if n = 3 then - EIO else 0 } 3 1).1 = - EIO :=
  ⟨by decide,
    (C20_direction_output_result
      { Sys.init (fun _ => 0) (fun _ => 0) (fun _ => 0) with
        outcome := fun n => if n = 3 then - EIO else 0 } 3 1 (by decide)).2.trans (by decide)⟩

/-! ## C21: set_value is one read-modify-write -/

/-- C21: for every pin in [0,15], every value, every prior register state and
every behaviour of the transport, the bus transactions of `set_value(pin,
value)` are one read of the output register `0x02 + pin/8` followed, when that
read succeeds, by one write of the same register, and nothing else; when the
read fails no write is issued.  The byte written is the byte read with bit
`pin%8` set to `value` and the other seven bits unchanged, and no other
register of the device changes. -/
theorem C21_set_value_rmw (s : Sys) (pin : Nat) (val : Int) (hpin : pin < 16) :
    ∃ v, v < 256 ∧
      (∀ b, b < 8 → v.testBit b =
        if b = pin % 8 then decide (val ≠ 0) else (s.regs (0x02 + pin / 8) % 256).testBit b) ∧
      (0 ≤ s.outcome s.count →
        bus_of (events_since s (kts1622_gpio_set_value s pin val)) =
          [Event.read (0x02 + pin / 8), Event.write (0x02 + pin / 8) v]) ∧
      (s.outcome s.count < 0 →
        bus_of (events_since s (kts1622_gpio_set_value s pin val)) =
          [Event.read (0x02 + pin / 8)]) ∧
      (∀ a, a ≠ 0x02 + pin / 8 → (kts1622_gpio_set_value s pin val).regs a = s.regs a) := by
  have ho : (KTS1622_OUTPUT_0 + pin / 8) % 256 = 0x02 + pin / 8 :=
    port_addr 0x02 pin (by norm_num) hpin
  have hbit : pin % 8 < 8 := Nat.mod_lt _ (by norm_num)
  have hr : (mutex_lock s Lock.i2c_lock).regs = s.regs := rfl
  have ht : (mutex_lock s Lock.i2c_lock).trace = s.trace ++ [Event.mutex_lock Lock.i2c_lock] :=
    rfl
  refine ⟨bit_set_byte (s.regs (0x02 + pin / 8) % 256) (pin % 8) (if val ≠ 0 then 1 else 0),
    bit_set_byte_lt _ _ _, ?_, ?_, ?_, ?_⟩
  · intro b hb
    rw [testBit_bit_set_byte _ _ _ _ hbit hb]
    by_cases hv : val = 0 <;> simp [hv]
  · intro hok
    apply (congrArg bus_of (events_since_append s _
      [Event.mutex_lock Lock.i2c_lock, Event.read (0x02 + pin / 8),
        Event.write (0x02 + pin / 8)
          (bit_set_byte (s.regs (0x02 + pin / 8) % 256) (pin % 8) (if val ≠ 0 then 1 else 0)),
        Event.mutex_unlock Lock.i2c_lock] ?_)).trans rfl
    simp only [kts1622_gpio_set_value, ho]
    rcases reg_bit_set_cases (mutex_lock s Lock.i2c_lock) (0x02 + pin / 8) (pin % 8)
      (if val ≠ 0 then 1 else 0) (by omega) with ⟨h0, _⟩ | ⟨_, _, e⟩ | ⟨_, _, e⟩
    · exact absurd hok (not_le.mpr h0)
    · rw [e, mutex_unlock_trace, hr]
      simp [ht]
    · rw [e, mutex_unlock_trace, hr]
      simp [ht]
  · intro hfail
    apply (congrArg bus_of (events_since_append s _
      [Event.mutex_lock Lock.i2c_lock, Event.read (0x02 + pin / 8),
        Event.mutex_unlock Lock.i2c_lock] ?_)).trans rfl
    simp only [kts1622_gpio_set_value, ho]
    rcases reg_bit_set_cases (mutex_lock s Lock.i2c_lock) (0x02 + pin / 8) (pin % 8)
      (if val ≠ 0 then 1 else 0) (by omega) with ⟨_, e⟩ | ⟨h0, _, _⟩ | ⟨h0, _, _⟩
    · rw [e, mutex_unlock_trace]
      simp [ht]
    · exact absurd h0 (not_le.mpr hfail)
    · exact absurd h0 (not_le.mpr hfail)
  · intro a ha
    simp only [kts1622_gpio_set_value, ho]
    exact reg_bit_set_regs_other (mutex_lock s Lock.i2c_lock) _ _ _ (by omega) a ha

/-- C21, witness: `set_value(9, 1)` on a device whose registers hold 0: a read
of 0x03, then the write of 0x02 to 0x03. -/
theorem C21_set_value_rmw_witness :
    (9 < 16) ∧
    ∃ v, v < 256 ∧
      bus_of (events_since (Sys.init (fun _ => 0) (fun _ => 0) (fun _ => 0))
        (kts1622_gpio_set_value (Sys.init (fun _ => 0) (fun _ => 0) (fun _ => 0)) 9 1)) =
          [Event.read (0x02 + 9 / 8), Event.write (0x02 + 9 / 8) v] :=
  ⟨by decide,
    Exists.elim
      (C21_set_value_rmw (Sys.init (fun _ => 0) (fun _ => 0) (fun _ => 0)) 9 1 (by decide))
      (fun v hv => ⟨v, hv.1, hv.2.2.1 (le_refl 0)⟩)⟩

/-! ## C22: get_value -/

/-- C22: for every pin in [0,15] and every behaviour of the transport, the
only bus transaction of `get_value(pin)` is one read of the input register
`0x00 + pin/8`; when the read succeeds with byte `b` the result is 1 if bit
`pin%8` of `b` is set and 0 otherwise; when the read fails the result is the
negative error code of the transport. -/
theorem C22_get_value (s : Sys) (pin : Nat) (hpin : pin < 16) :
    bus_of (events_since s (kts1622_gpio_get_value s pin).2) = [Event.read (0x00 + pin / 8)] ∧
    (0 ≤ s.outcome s.count →
      (kts1622_gpio_get_value s pin).1 =
        if (s.regs (0x00 + pin / 8) % 256).testBit (pin % 8) = true then 1 else 0) ∧
    (s.outcome s.count < 0 →
      (kts1622_gpio_get_value s pin).1 = s.outcome s.count ∧
      (kts1622_gpio_get_value s pin).1 < 0) := by
  have hi : (KTS1622_INPUT_0 + pin / 8) % 256 = 0x00 + pin / 8 :=
    port_addr 0x00 pin (by norm_num) hpin
  refine ⟨?_, ?_, ?_⟩
  · apply (congrArg bus_of (events_since_append s _
      [Event.mutex_lock Lock.i2c_lock, Event.read (0x00 + pin / 8),
        Event.mutex_unlock Lock.i2c_lock] ?_)).trans rfl
    rw [get_value_state, mutex_unlock_trace, reg_read_trace, hi, mutex_lock_trace]
    simp
  · intro hok
    simp only [kts1622_gpio_get_value]
    rw [reg_read_ok (mutex_lock s Lock.i2c_lock) _ _ hok, hi]
    simp only [lt_irrefl, if_false]
    show (if s.regs (0x00 + pin / 8) % 256 &&& 1 <<< (pin % 8) ≠ 0 then (1 : Int) else 0) = _
    by_cases ht : (s.regs (0x00 + pin / 8) % 256).testBit (pin % 8) = true
    · rw [if_pos ((and_shift_ne_zero _ _).mpr ht), if_pos ht]
    · rw [if_neg (fun hh => ht ((and_shift_ne_zero _ _).mp hh)), if_neg ht]
  · intro hfail
    simp only [kts1622_gpio_get_value]
    rw [reg_read_fail (mutex_lock s Lock.i2c_lock) _ _ hfail]
    have hf : (mutex_lock s Lock.i2c_lock).outcome (mutex_lock s Lock.i2c_lock).count < 0 :=
      hfail
    simp only [if_pos hf]
    exact ⟨rfl, hfail⟩

/-- C22, witness: `get_value(13)` on a device whose registers all hold 0x20
returns 1. -/
theorem C22_get_value_witness :
    (13 < 16) ∧
    (kts1622_gpio_get_value (Sys.init (fun _ => 0x20) (fun _ => 0) (fun _ => 0)) 13).1 = 1 :=
  ⟨by decide,
    ((C22_get_value (Sys.init (fun _ => 0x20) (fun _ => 0) (fun _ => 0)) 13 (by decide)).2.1
      (le_refl 0)).trans (by decide)⟩

/-! ## C23, C24, C27: set_config -/

/-- C23: for every pin and every packed configuration whose parameter is none
of bias-disable, pull-up, pull-down, push-pull and open-drain, `set_config`
returns `-ENOTSUPP` and leaves the whole state as it was: no event is added to
the trace, so no bus transaction is issued. -/
theorem C23_set_config_unsupported (s : Sys) (offset config : Nat) (ret : Int)
    (_h1 : pinconf_to_config_param config ≠ PIN_CONFIG_BIAS_DISABLE)
    (h2 : pinconf_to_config_param config ≠ PIN_CONFIG_BIAS_PULL_UP)
    (h3 : pinconf_to_config_param config ≠ PIN_CONFIG_BIAS_PULL_DOWN)
    (h4 : pinconf_to_config_param config ≠ PIN_CONFIG_DRIVE_PUSH_PULL)
    (h5 : pinconf_to_config_param config ≠ PIN_CONFIG_DRIVE_OPEN_DRAIN) :
    (kts1622_gpio_set_config s offset config ret).1 = - ENOTSUPP ∧
    (kts1622_gpio_set_config s offset config ret).2 = s ∧
    events_since s (kts1622_gpio_set_config s offset config ret).2 = [] := by
  have e : kts1622_gpio_set_config s offset config ret = (- ENOTSUPP, s) := by
    simp only [kts1622_gpio_set_config, h2, h3, h4, h5, or_self, if_false]
  rw [e]
  exact ⟨rfl, rfl, by simp [events_since]⟩

/-- C23, witness: the parameter 9 (drive strength) with argument 4 on pin 2. -/
theorem C23_set_config_unsupported_witness :
    (kts1622_gpio_set_config (Sys.init (fun _ => 0) (fun _ => 0) (fun _ => 0)) 2
      (pinconf_to_config_packed 9 4) 0).1 = - ENOTSUPP :=
  (C23_set_config_unsupported (Sys.init (fun _ => 0) (fun _ => 0) (fun _ => 0)) 2
    (pinconf_to_config_packed 9 4) 0 (by decide) (by decide) (by decide) (by decide)
    (by decide)).1

/-- C24, at the failing input: pin 6 has its pull enabled (the registers hold
0xFF) and `set_config` is called with the bias-disable parameter.  The call
returns `-ENOTSUPP`, issues no bus transaction and leaves the pull-enable bit
of pin 6 at 1: the `switch` of `kts1622_gpio_set_config` has no case for
`PIN_CONFIG_BIAS_DISABLE`, although `kts1622_gpio_set_pull_up_down`
called directly with it disables the pull and returns 0. -/
theorem C24_set_config_bias_disable_refused :
    (kts1622_gpio_set_config (Sys.init (fun _ => 0xFF) (fun _ => 0) (fun _ => 0)) 6
      (pinconf_to_config_packed PIN_CONFIG_BIAS_DISABLE 0) 0).1 = - ENOTSUPP ∧
    (kts1622_gpio_set_config (Sys.init (fun _ => 0xFF) (fun _ => 0) (fun _ => 0)) 6
      (pinconf_to_config_packed PIN_CONFIG_BIAS_DISABLE 0) 0).2.trace = [] ∧
    ((kts1622_gpio_set_config (Sys.init (fun _ => 0xFF) (fun _ => 0) (fun _ => 0)) 6
      (pinconf_to_config_packed PIN_CONFIG_BIAS_DISABLE 0) 0).2.regs 0x46).testBit 6 = true ∧
    (kts1622_gpio_set_pull_up_down (Sys.init (fun _ => 0xFF) (fun _ => 0) (fun _ => 0)) 6
      PIN_CONFIG_BIAS_DISABLE).1 = 0 ∧
    ((kts1622_gpio_set_pull_up_down (Sys.init (fun _ => 0xFF) (fun _ => 0) (fun _ => 0)) 6
      PIN_CONFIG_BIAS_DISABLE).2.regs 0x46).testBit 6 = false := by
  decide

/-- C27, at the failing input: `set_config` on pin 6 with the packed
configuration (pull-up, argument 1) = 0x105, registers all 0.  The call
returns 0 but its only register write is 0x00 to the pull-enable register
0x46: the pull-enable bit and the pull-selection bit of pin 6 are both 0
afterwards.  With the packed configuration (open-drain, argument 1) and the
registers all 0xFF the call issues no bus transaction, returns whatever its
uninitialised `ret` holds (here -7) and leaves the output-mode bit at 1. -/
theorem C27_set_config_packed_argument :
    pinconf_to_config_packed PIN_CONFIG_BIAS_PULL_UP 1 = 0x105 ∧
    (kts1622_gpio_set_config (Sys.init (fun _ => 0) (fun _ => 0) (fun _ => 0)) 6
      (pinconf_to_config_packed PIN_CONFIG_BIAS_PULL_UP 1) 0).1 = 0 ∧
    writes_of (kts1622_gpio_set_config (Sys.init (fun _ => 0) (fun _ => 0) (fun _ => 0)) 6
      (pinconf_to_config_packed PIN_CONFIG_BIAS_PULL_UP 1) 0).2.trace = [(0x46, 0x00)] ∧
    ((kts1622_gpio_set_config (Sys.init (fun _ => 0) (fun _ => 0) (fun _ => 0)) 6
      (pinconf_to_config_packed PIN_CONFIG_BIAS_PULL_UP 1) 0).2.regs 0x46).testBit 6 = false ∧
    ((kts1622_gpio_set_config (Sys.init (fun _ => 0) (fun _ => 0) (fun _ => 0)) 6
      (pinconf_to_config_packed PIN_CONFIG_BIAS_PULL_UP 1) 0).2.regs 0x48).testBit 6 = false ∧
    (kts1622_gpio_set_config (Sys.init (fun _ => 0xFF) (fun _ => 0) (fun _ => 0)) 6
      (pinconf_to_config_packed PIN_CONFIG_DRIVE_OPEN_DRAIN 1) (-7)).1 = -7 ∧
    bus_of (kts1622_gpio_set_config (Sys.init (fun _ => 0xFF) (fun _ => 0) (fun _ => 0)) 6
      (pinconf_to_config_packed PIN_CONFIG_DRIVE_OPEN_DRAIN 1) (-7)).2.trace = [] ∧
    ((kts1622_gpio_set_config (Sys.init (fun _ => 0xFF) (fun _ => 0) (fun _ => 0)) 6
      (pinconf_to_config_packed PIN_CONFIG_DRIVE_OPEN_DRAIN 1) (-7)).2.regs 0x58).testBit 6
        = true := by
  decide

/-! ## C25: the pin operations run under the state lock -/

theorem bus_only_append {l1 l2 : List Event} (h1 : bus_only l1) (h2 : bus_only l2) :
    bus_only (l1 ++ l2) := by
  intro e he
  rcases List.mem_append.mp he with h | h
  · exact h1 e h
  · exact h2 e h

theorem bus_only_nil : bus_only [] := fun _ he => absurd he (List.not_mem_nil _)

theorem reg_bit_set_bus (s : Sys) (a bit bv : Nat) (ha : a < 256) :
    ∃ l, (kts1622_reg_bit_set s a bit bv).2.trace = s.trace ++ l ∧ bus_only l := by
  rcases reg_bit_set_cases s a bit bv ha with ⟨_, e⟩ | ⟨_, _, e⟩ | ⟨_, _, e⟩
  · exact ⟨[Event.read a], by rw [e], by intro x hx; simp at hx; subst hx; rfl⟩
  · refine ⟨[Event.read a, Event.write a (bit_set_byte (s.regs a % 256) bit bv)], by rw [e], ?_⟩
    intro x hx
    simp at hx
    rcases hx with rfl | rfl <;> rfl
  · refine ⟨[Event.read a, Event.write a (bit_set_byte (s.regs a % 256) bit bv)], by rw [e], ?_⟩
    intro x hx
    simp at hx
    rcases hx with rfl | rfl <;> rfl

theorem locked_section_intro (s s' : Sys) (mid : List Event)
    (h : s'.trace = s.trace ++ (Event.mutex_lock Lock.i2c_lock :: mid ++
      [Event.mutex_unlock Lock.i2c_lock]))
    (hb : bus_only mid) : locked_section (events_since s s') :=
  ⟨mid, events_since_append s s' _ h, hb⟩

theorem get_value_locked (s : Sys) (offset : Nat) :
    locked_section (events_since s (kts1622_gpio_get_value s offset).2) := by
  apply locked_section_intro s _ [Event.read ((KTS1622_INPUT_0 + offset / 8) % 256)]
  · rw [get_value_state, mutex_unlock_trace, reg_read_trace, mutex_lock_trace]
    simp
  · intro x hx
    simp at hx
    subst hx
    rfl

theorem get_direction_locked (s : Sys) (offset : Nat) :
    locked_section (events_since s (kts1622_gpio_get_direction s offset).2) := by
  apply locked_section_intro s _ [Event.read ((KTS1622_CONFIG_0 + offset / 8) % 256)]
  · rw [get_direction_state, mutex_unlock_trace, reg_read_trace, mutex_lock_trace]
    simp
  · intro x hx
    simp at hx
    subst hx
    rfl

theorem set_value_locked (s : Sys) (offset : Nat) (val : Int) :
    locked_section (events_since s (kts1622_gpio_set_value s offset val)) := by
  obtain ⟨l, hl, bl⟩ := reg_bit_set_bus (mutex_lock s Lock.i2c_lock)
    ((KTS1622_OUTPUT_0 + offset / 8) % 256) (offset % 8) (if val ≠ 0 then 1 else 0)
    (addr_lt _ _)
  apply locked_section_intro s _ l _ bl
  simp only [kts1622_gpio_set_value, mutex_unlock_trace, hl, mutex_lock_trace]
  simp

theorem set_direction_locked (s : Sys) (offset : Nat) (direction : Int) :
    locked_section (events_since s (kts1622_gpio_set_direction s offset direction).2) := by
  by_cases hd : direction = PIN_OUTPUT
  · obtain ⟨l, hl, bl⟩ := reg_bit_set_bus (mutex_lock s Lock.i2c_lock)
      ((KTS1622_CONFIG_0 + offset / 8) % 256) (offset % 8) 0 (addr_lt _ _)
    apply locked_section_intro s _ l _ bl
    simp only [kts1622_gpio_set_direction, if_pos hd, mutex_unlock_trace, hl, mutex_lock_trace]
    simp
  · obtain ⟨l, hl, bl⟩ := reg_bit_set_bus (mutex_lock s Lock.i2c_lock)
      ((KTS1622_CONFIG_0 + offset / 8) % 256) (offset % 8) 1 (addr_lt _ _)
    apply locked_section_intro s _ l _ bl
    simp only [kts1622_gpio_set_direction, if_neg hd, mutex_unlock_trace, hl, mutex_lock_trace]
    simp

theorem set_open_drain_locked (s : Sys) (offset config : Nat) (ret : Int) :
    locked_section (events_since s (kts1622_gpio_set_open_drain s offset config ret).2) := by
  by_cases h0 : config = PIN_CONFIG_DRIVE_OPEN_DRAIN
  · obtain ⟨l, hl, bl⟩ := reg_bit_set_bus (mutex_lock s Lock.i2c_lock)
      ((KTS1622_INDIVIDUAL_PIN_OUTPUT_0 + offset / 8) % 256) (offset % 8) 0 (addr_lt _ _)
    apply locked_section_intro s _ l _ bl
    simp only [kts1622_gpio_set_open_drain, if_pos h0, mutex_unlock_trace, hl, mutex_lock_trace]
    simp
  · by_cases h1 : config = PIN_CONFIG_DRIVE_PUSH_PULL
    · obtain ⟨l, hl, bl⟩ := reg_bit_set_bus (mutex_lock s Lock.i2c_lock)
        ((KTS1622_INDIVIDUAL_PIN_OUTPUT_0 + offset / 8) % 256) (offset % 8) 1 (addr_lt _ _)
      apply locked_section_intro s _ l _ bl
      simp only [kts1622_gpio_set_open_drain, if_neg h0, if_pos h1, mutex_unlock_trace, hl,
        mutex_lock_trace]
      simp
    · apply locked_section_intro s _ [] _ bus_only_nil
      simp only [kts1622_gpio_set_open_drain, if_neg h0, if_neg h1, mutex_unlock_trace,
        mutex_lock_trace]
      simp

theorem set_pull_up_down_locked (s : Sys) (offset config : Nat) :
    locked_section (events_since s (kts1622_gpio_set_pull_up_down s offset config).2) := by
  obtain ⟨l1, h1, b1⟩ := reg_bit_set_bus (mutex_lock s Lock.i2c_lock)
    ((KTS1622_PULLUP_DOWN_ENABLE_0 + offset / 8) % 256) (offset % 8) PULL_UP_DOWN_DISABLE (addr_lt _ _)
  simp only [kts1622_gpio_set_pull_up_down]
  split_ifs
  · exact locked_section_intro s _ l1
      (by simp [mutex_unlock_trace, h1, mutex_lock_trace]) b1
  · obtain ⟨l2, h2, b2⟩ := reg_bit_set_bus (kts1622_reg_bit_set (mutex_lock s Lock.i2c_lock)
      ((KTS1622_PULLUP_DOWN_ENABLE_0 + offset / 8) % 256) (offset % 8) PULL_UP_DOWN_DISABLE).2
      ((KTS1622_PULLUP_DOWN_SELECTION_0 + offset / 8) % 256) (offset % 8) PULL_UP (addr_lt _ _)
    exact locked_section_intro s _ (l1 ++ l2)
      (by simp [mutex_unlock_trace, h2, h1, mutex_lock_trace]) (bus_only_append b1 b2)
  · obtain ⟨l2, h2, b2⟩ := reg_bit_set_bus (kts1622_reg_bit_set (mutex_lock s Lock.i2c_lock)
      ((KTS1622_PULLUP_DOWN_ENABLE_0 + offset / 8) % 256) (offset % 8) PULL_UP_DOWN_DISABLE).2
      ((KTS1622_PULLUP_DOWN_SELECTION_0 + offset / 8) % 256) (offset % 8) PULL_UP (addr_lt _ _)
    obtain ⟨l3, h3, b3⟩ := reg_bit_set_bus (kts1622_reg_bit_set (kts1622_reg_bit_set (mutex_lock s Lock.i2c_lock)
      ((KTS1622_PULLUP_DOWN_ENABLE_0 + offset / 8) % 256) (offset % 8) PULL_UP_DOWN_DISABLE).2
      ((KTS1622_PULLUP_DOWN_SELECTION_0 + offset / 8) % 256) (offset % 8) PULL_UP).2
      ((KTS1622_PULLUP_DOWN_ENABLE_0 + offset / 8) % 256) (offset % 8) PULL_UP_DOWN_ENABLE (addr_lt _ _)
    exact locked_section_intro s _ (l1 ++ l2 ++ l3)
      (by simp [mutex_unlock_trace, h3, h2, h1, mutex_lock_trace])
      (bus_only_append (bus_only_append b1 b2) b3)
  · obtain ⟨l2, h2, b2⟩ := reg_bit_set_bus (kts1622_reg_bit_set (mutex_lock s Lock.i2c_lock)
      ((KTS1622_PULLUP_DOWN_ENABLE_0 + offset / 8) % 256) (offset % 8) PULL_UP_DOWN_DISABLE).2
      ((KTS1622_PULLUP_DOWN_SELECTION_0 + offset / 8) % 256) (offset % 8) PULL_DOWN (addr_lt _ _)
    exact locked_section_intro s _ (l1 ++ l2)
      (by simp [mutex_unlock_trace, h2, h1, mutex_lock_trace]) (bus_only_append b1 b2)
  · obtain ⟨l2, h2, b2⟩ := reg_bit_set_bus (kts1622_reg_bit_set (mutex_lock s Lock.i2c_lock)
      ((KTS1622_PULLUP_DOWN_ENABLE_0 + offset / 8) % 256) (offset % 8) PULL_UP_DOWN_DISABLE).2
      ((KTS1622_PULLUP_DOWN_SELECTION_0 + offset / 8) % 256) (offset % 8) PULL_DOWN (addr_lt _ _)
    obtain ⟨l3, h3, b3⟩ := reg_bit_set_bus (kts1622_reg_bit_set (kts1622_reg_bit_set (mutex_lock s Lock.i2c_lock)
      ((KTS1622_PULLUP_DOWN_ENABLE_0 + offset / 8) % 256) (offset % 8) PULL_UP_DOWN_DISABLE).2
      ((KTS1622_PULLUP_DOWN_SELECTION_0 + offset / 8) % 256) (offset % 8) PULL_DOWN).2
      ((KTS1622_PULLUP_DOWN_ENABLE_0 + offset / 8) % 256) (offset % 8) PULL_UP_DOWN_ENABLE (addr_lt _ _)
    exact locked_section_intro s _ (l1 ++ l2 ++ l3)
      (by simp [mutex_unlock_trace, h3, h2, h1, mutex_lock_trace])
      (bus_only_append (bus_only_append b1 b2) b3)
  · obtain ⟨l2, h2, b2⟩ := reg_bit_set_bus (kts1622_reg_bit_set (mutex_lock s Lock.i2c_lock)
      ((KTS1622_PULLUP_DOWN_ENABLE_0 + offset / 8) % 256) (offset % 8) PULL_UP_DOWN_DISABLE).2
      ((KTS1622_PULLUP_DOWN_ENABLE_0 + offset / 8) % 256) (offset % 8) PULL_UP_DOWN_DISABLE (addr_lt _ _)
    exact locked_section_intro s _ (l1 ++ l2)
      (by simp [mutex_unlock_trace, h2, h1, mutex_lock_trace]) (bus_only_append b1 b2)
  · exact locked_section_intro s _ l1
      (by simp [mutex_unlock_trace, h1, mutex_lock_trace]) b1

/-- C25: for each of get_value, set_value, set_direction, get_direction,
set_pull and set_drive_mode, for every input and every behaviour of the
transport, the events of the operation are one critical section of the state
lock: the lock is taken first, then come only bus transactions, and the lock
is released exactly once, as the last event, on error exits as on success. -/
theorem C25_pin_ops_locked (s : Sys) (offset : Nat) (val direction : Int) (config : Nat)
    (ret : Int) :
    locked_section (events_since s (kts1622_gpio_get_value s offset).2) ∧
    locked_section (events_since s (kts1622_gpio_set_value s offset val)) ∧
    locked_section (events_since s (kts1622_gpio_set_direction s offset direction).2) ∧
    locked_section (events_since s (kts1622_gpio_get_direction s offset).2) ∧
    locked_section (events_since s (kts1622_gpio_set_pull_up_down s offset config).2) ∧
    locked_section (events_since s (kts1622_gpio_set_open_drain s offset config ret).2) :=
  ⟨get_value_locked s offset, set_value_locked s offset val,
    set_direction_locked s offset direction, get_direction_locked s offset,
    set_pull_up_down_locked s offset config, set_open_drain_locked s offset config ret⟩

/-! ## C26: the interrupt controller and the state lock -/

/-- One round of the first loop of the handler, whatever the transport does:
it appends bus transactions only. -/
theorem irq_handler_ack_bus (st : (Nat → Nat) × Sys) (port : Nat) :
    ∃ l, (kts1622_irq_handler_ack st port).2.trace = st.2.trace ++ l ∧ bus_only l := by
  simp only [kts1622_irq_handler_ack]
  split_ifs
  · refine ⟨[Event.read ((KTS1622_INTERRUPT_STATUS_0 + port) % 256),
      Event.write ((KTS1622_INTERRUPT_CLEAR_0 + port) % 256)
        (Function.update st.1 port
          (kts1622_reg_read st.2 (KTS1622_INTERRUPT_STATUS_0 + port) (st.1 port)).2.1 port
          % 256)], ?_, ?_⟩
    · rw [reg_write_trace, reg_read_trace]
      simp
    · intro x hx
      simp at hx
      rcases hx with rfl | rfl <;> rfl
  · refine ⟨[Event.read ((KTS1622_INTERRUPT_STATUS_0 + port) % 256)], ?_, ?_⟩
    · rw [reg_read_trace]
    · intro x hx
      simp at hx
      subst hx
      rfl

/-- The second loop of the handler: it only invokes nested handlers, those of
the bits set in the two status bytes. -/
theorem irq_handler_nested_phase (irq_status : Nat → Nat) (t : Sys) :
    ((List.range NUM_PORTS).foldl (kts1622_irq_handler_port irq_status) (0, t)).2.trace =
      t.trace ++ List.map Event.handle_nested_irq
        (List.map (fun b => 0 * 8 + b) (set_bits (irq_status 0)) ++
          List.map (fun b => 1 * 8 + b) (set_bits (irq_status 1))) := by
  show (kts1622_irq_handler_port irq_status
    (kts1622_irq_handler_port irq_status (0, t) 0) 1).2.trace = _
  simp only [kts1622_irq_handler_port, NUM_PINS_PER_PORT, irq_handler_pin_foldl, set_bits,
    List.append_assoc, List.map_append, List.map_map]
  rfl

/-- C26, counterexample: in the trace of a commit, and in the trace of a
dispatch that finds status 0x05 on port 0, bus transactions occur while the
state lock is not held. -/
theorem C26_irq_paths_without_state_lock :
    bus_under_lock false
      (events_since (Sys.init (fun _ => 0) (fun _ => 0) (fun _ => 0))
        (kts1622_irq_bus_sync_unlock
          (kts1622_irq_bus_lock (Sys.init (fun _ => 0) (fun _ => 0) (fun _ => 0))))) = false ∧
    bus_under_lock false
      (events_since (Sys.init (fun a => if a = 0x4C then 5 else 0) (fun _ => 0) (fun _ => 0))
        (kts1622_irq_handler
          (Sys.init (fun a => if a = 0x4C then 5 else 0) (fun _ => 0) (fun _ => 0))
          (fun _ => 0)).2) = false := by
  decide

/-- C26, amended: the interrupt controller never takes the state lock.  For
every state and every behaviour of the transport, the events of begin_batch
followed by commit are: the cache lock is taken, the six register writes are
issued, the cache lock is released; the events of dispatch are bus
transactions followed by handler invocations, with no lock event at all, so
every register transaction of dispatch precedes its first handler
invocation. -/
theorem C26_irq_paths_lock_free (s : Sys) (irq_status : Nat → Nat) :
    events_since s (kts1622_irq_bus_sync_unlock (kts1622_irq_bus_lock s)) =
      [Event.mutex_lock Lock.irq_lock,
        Event.write 0x4A (s.chip.irq_mask 0 % 256),
        Event.write 0x50 (s.chip.irq_edge 0 % 256),
        Event.write 0x51 (s.chip.irq_edge 1 % 256),
        Event.write 0x4B (s.chip.irq_mask 1 % 256),
        Event.write 0x52 (s.chip.irq_edge 2 % 256),
        Event.write 0x53 (s.chip.irq_edge 3 % 256),
        Event.mutex_unlock Lock.irq_lock] ∧
    ∃ bus lines,
      events_since s (kts1622_irq_handler s irq_status).2 =
        bus ++ List.map Event.handle_nested_irq lines ∧
      bus_only bus := by
  constructor
  · apply events_since_append
    rw [irq_bus_sync_unlock_trace]
    simp [kts1622_irq_bus_lock, mutex_lock, emit]
  · obtain ⟨l0, t0, b0⟩ := irq_handler_ack_bus ((fun port => irq_status port % 256), s) 0
    obtain ⟨l1, t1, b1⟩ := irq_handler_ack_bus
      (kts1622_irq_handler_ack ((fun port => irq_status port % 256), s) 0) 1
    have hfold : (List.range NUM_PORTS).foldl kts1622_irq_handler_ack
        ((fun port => irq_status port % 256), s) =
        kts1622_irq_handler_ack
          (kts1622_irq_handler_ack ((fun port => irq_status port % 256), s) 0) 1 := rfl
    refine ⟨l0 ++ l1,
      List.map (fun b => 0 * 8 + b) (set_bits ((kts1622_irq_handler_ack
          (kts1622_irq_handler_ack ((fun port => irq_status port % 256), s) 0) 1).1 0)) ++
        List.map (fun b => 1 * 8 + b) (set_bits ((kts1622_irq_handler_ack
          (kts1622_irq_handler_ack ((fun port => irq_status port % 256), s) 0) 1).1 1)),
      ?_, bus_only_append b0 b1⟩
    apply events_since_append
    simp only [kts1622_irq_handler]
    rw [irq_handler_nested_phase, hfold, t1, t0]
    simp only [List.append_assoc]

/-! ## C28: dispatch after a failed status read -/

/-- C28, at the failing input: the read of the status register 0x4C fails with
-EIO, every other transaction succeeds and all registers hold 0.  When the
uninitialised `irq_status[0]` happens to hold 0x81, dispatch writes 0x81 to
the clear register 0x54, invokes the handlers of lines 0 and 7 and returns
`IRQ_HANDLED`; when it happens to hold 0, dispatch writes nothing, invokes
nothing and returns `IRQ_NONE`.  The result of `kts1622_reg_read` is
dropped at line 418. -/
theorem C28_dispatch_uses_uninitialised_status :
    writes_of (kts1622_irq_handler
      { Sys.init (fun _ => 0) (fun _ => 0) (fun _ => 0) with
        outcome := fun n => if n = 0 then - EIO else 0 } (fun _ => 0x81)).2.trace
      = [(0x54, 0x81)] ∧
    nested_of (kts1622_irq_handler
      { Sys.init (fun _ => 0) (fun _ => 0) (fun _ => 0) with
        outcome := fun n => if n = 0 then - EIO else 0 } (fun _ => 0x81)).2.trace = [0, 7] ∧
    (kts1622_irq_handler
      { Sys.init (fun _ => 0) (fun _ => 0) (fun _ => 0) with
        outcome := fun n => if n = 0 then - EIO else 0 } (fun _ => 0x81)).1 = IRQ_HANDLED ∧
    writes_of (kts1622_irq_handler
      { Sys.init (fun _ => 0) (fun _ => 0) (fun _ => 0) with
        outcome := fun n => if n = 0 then - EIO else 0 } (fun _ => 0)).2.trace = [] ∧
    nested_of (kts1622_irq_handler
      { Sys.init (fun _ => 0) (fun _ => 0) (fun _ => 0) with
        outcome := fun n => if n = 0 then - EIO else 0 } (fun _ => 0)).2.trace = [] ∧
    (kts1622_irq_handler
      { Sys.init (fun _ => 0) (fun _ => 0) (fun _ => 0) with
        outcome := fun n => if n = 0 then - EIO else 0 } (fun _ => 0)).1 = IRQ_NONE := by
  decide

end KTS1622
